import Mathlib

/-!
# EVE Buddy: section status, section updates, notifications, routes, navigator, layout

A shallow embedding of parts of the application's core:

* `internal/app/sectionstatus.go`: the `SectionStatus` record and its derived
  predicates (`IsOK`, `IsExpired`, `IsCurrent`, `IsMissing`, `IsRunning`);
* the section update orchestration (`UpdateSectionIfNeeded`,
  `updateSectionIfChanged`), whose callers and tests are in
  `internal/app/characterservice`, and `updateAttributesESI` of
  `internal/app/characterservice/attributes.go`;
* `internal/app/evenotification/evenotification.go`: `RenderESI`;
* `internal/app/eveuniverseservice/map.go`: `GetRouteESI` and the single-flight keys
  of the entity creations;
* `internal/widget/navigator.go`: `Navigator` with `Push`, `Pop` and `PopAll`;
* `internal/layout/rowwrap.go`: `rowWrapLayout.Layout`.

Conventions. A Go `time.Time` is a wall-clock instant counted in nanoseconds
from the zero time (January 1, year 1, 00:00:00 UTC); the reading of
`time.Now()` is an explicit argument `now`. A Go `time.Duration` is a signed
64-bit count of nanoseconds: it is an `Int`, and arithmetic the program does on
durations is reduced with `wrapInt64`. Go results `(v, err)` with a `nil` error
are `Except.ok v`, results with an error are `Except.error`; a call that can panic
returns an `Outcome`. A Go `float32` is a `Float32`: a finite number counted in units
of 2^-149, an infinity or NaN, with results rounded to the nearest value, ties to
even.
-/

namespace EveBuddy

/-! ## Time and durations (Go package `time`) -/

/-- Smallest value of a Go `int64`. -/
def minInt64 : Int := -(2 ^ 63)

/-- Largest value of a Go `int64`. -/
def maxInt64 : Int := 2 ^ 63 - 1

/-- Two's complement reduction of an integer to the range of a Go `int64`. -/
def wrapInt64 (x : Int) : Int := (x + 2 ^ 63) % 2 ^ 64 - 2 ^ 63

/-- Go `d * k` on `time.Duration` values: the product, wrapped to 64 bits. -/
def Duration.mul (d k : Int) : Int := wrapInt64 (d * k)

/-- Go `time.Nanosecond`. -/
def Nanosecond : Int := 1

/-- Go `time.Second`. -/
def Second : Int := 1000000000

/-- Go `time.Minute`. -/
def Minute : Int := 60 * Second

/-- Go `time.Time` as a wall-clock instant: nanoseconds since the zero time. -/
structure Time where
  ns : Int
deriving DecidableEq, Repr

namespace Time

/-- The zero value of `time.Time`. -/
def zero : Time := ⟨0⟩

/-- Go `Time.IsZero`: reports whether the instant is the zero time. -/
def IsZero (t : Time) : Bool := decide (t.ns = 0)

/-- Go `Time.Add`: the instant `t + d`. -/
def Add (t : Time) (d : Int) : Time := ⟨t.ns + d⟩

/-- Go `Time.After`: reports whether `t` is after `u`. -/
def After (t u : Time) : Bool := decide (u.ns < t.ns)

/-- Go `Time.Before`: reports whether `t` is before `u`. -/
def Before (t u : Time) : Bool := decide (t.ns < u.ns)

end Time

/-! ## `SectionStatus` (internal/app/sectionstatus.go) -/

/-- Entity ID for general sections. -/
def GeneralSectionEntityID : Int := 1

/-- Entity name for general sections. -/
def GeneralSectionEntityName : String := "Eve Universe"

/-- Go `app.SectionStatus`. -/
structure SectionStatus where
  EntityID : Int
  EntityName : String
  CompletedAt : Time
  ContentHash : String
  ErrorMessage : String
  SectionID : String
  SectionName : String
  StartedAt : Time
  /-- A `time.Duration`: nanoseconds, a signed 64-bit integer. -/
  Timeout : Int
deriving DecidableEq, Repr

namespace SectionStatus

/-- The zero value of `SectionStatus`: every field is the zero value of its type. -/
def zeroValue : SectionStatus :=
  { EntityID := 0, EntityName := "", CompletedAt := Time.zero, ContentHash := "",
    ErrorMessage := "", SectionID := "", SectionName := "", StartedAt := Time.zero,
    Timeout := 0 }

def IsGeneralSection (s : SectionStatus) : Bool :=
  decide (s.EntityID = GeneralSectionEntityID)

def IsOK (s : SectionStatus) : Bool :=
  decide (s.ErrorMessage = "")

/-- `IsExpired`, with the reading of `time.Now()` as the argument `now`. -/
def IsExpired (s : SectionStatus) (now : Time) : Bool :=
  if s.CompletedAt.IsZero then
    true
  else
    let deadline := s.CompletedAt.Add s.Timeout
    now.After deadline

/-- `IsCurrent`, with the reading of `time.Now()` as the argument `now`. -/
def IsCurrent (s : SectionStatus) (now : Time) : Bool :=
  if s.CompletedAt.IsZero then
    false
  else
    now.Before (s.CompletedAt.Add (Duration.mul s.Timeout 2))

def IsMissing (s : SectionStatus) : Bool :=
  s.CompletedAt.IsZero

def IsRunning (s : SectionStatus) : Bool :=
  !s.StartedAt.IsZero

end SectionStatus

/-! ## Section updates (spec §4.1 to §4.4)

The functions `UpdateSectionIfNeeded` and `updateSectionIfChanged` are called by
`internal/app/characterservice/attributes.go` and by the tests of that package; their
bodies are described by the specification, sections 4.1 to 4.4. A call is modelled
sequentially: no other call for the same key is in flight, so the coordinator runs
the body itself. The data fetched is of an arbitrary type `δ` (Go `any`).
-/

/-- Go `app.CharacterUpdateSectionParams`, as built by the callers of
`UpdateSectionIfNeeded`: the owner, the section and the force flag. -/
structure CharacterUpdateSectionParams where
  CharacterID : Int
  Section : String
  ForceUpdate : Bool
deriving DecidableEq, Repr

/-- Modelled from the spec: the StatusRegistry of §4.1, the in-memory map holding
exactly one `SectionStatus` per (owner, section) (§3); its implementation is not among
the sources. `keyed` says that a record is filed under its own key. -/
structure StatusRegistry where
  records : Int → String → Option SectionStatus
  keyed : ∀ owner sectionID status, records owner sectionID = some status →
    status.EntityID = owner ∧ status.SectionID = sectionID

namespace StatusRegistry

/-- The registry without any record. -/
def empty : StatusRegistry :=
  { records := fun _ _ => none
    keyed := fun _ _ _ h => Option.noConfusion h }

/-- Modelled from the spec: `Get(owner, section) -> status, found` of §4.1. -/
def Get (r : StatusRegistry) (owner : Int) (sectionID : String) : Option SectionStatus :=
  r.records owner sectionID

/-- Modelled from the spec: `Set(status)` of §4.1 replaces the whole record for the
key of the status (last writer wins, no merge). -/
def Set (r : StatusRegistry) (status : SectionStatus) : StatusRegistry :=
  { records := fun owner sectionID =>
      if owner = status.EntityID ∧ sectionID = status.SectionID then some status
      else r.records owner sectionID
    keyed := by
      intro owner sectionID st h
      simp only at h
      by_cases hk : owner = status.EntityID ∧ sectionID = status.SectionID
      · rw [if_pos hk] at h
        cases h
        exact ⟨hk.1.symm, hk.2.symm⟩
      · rw [if_neg hk] at h
        exact r.keyed owner sectionID st h }

/-- Modelled from the spec: the status looked up for a key; a record that does not
exist yet is created lazily as the zero value ("missing") for that key (§3). -/
def lookup (r : StatusRegistry) (owner : Int) (sectionID : String) : SectionStatus :=
  match r.Get owner sectionID with
  | some status => status
  | none => { SectionStatus.zeroValue with EntityID := owner, SectionID := sectionID }

end StatusRegistry

/-- An invocation of one of the collaborators of §6. -/
inductive Invocation (δ : Type) where
  /-- The fetch function of a section was invoked. -/
  | fetch (owner : Int) (sectionID : String)
  /-- The storage write of a section was invoked with `data`. -/
  | write (owner : Int) (sectionID : String) (data : δ)
deriving DecidableEq, Repr

/-- Reports whether an invocation is one of the fetch function. -/
def Invocation.isFetch {δ : Type} : Invocation δ → Bool
  | .fetch _ _ => true
  | .write _ _ _ => false

/-- Reports whether an invocation is one of the storage write. -/
def Invocation.isWrite {δ : Type} : Invocation δ → Bool
  | .fetch _ _ => false
  | .write _ _ _ => true

/-- Modelled from the spec: the collaborators of §6 as they answer during one call.
`fetch` is the result of the fetch function (normalized data, or an error text),
`write` the result of the storage write (`none` for success, or an error text) and
`fingerprint` the content fingerprint of §4.3. A fingerprint is the hash of a payload
and never the empty text: the empty `ContentHash` is what a status holds before its
first success, when no fingerprint is stored yet (§3). -/
structure Collaborators (δ : Type) where
  fetch : Except String δ
  write : δ → Option String
  fingerprint : δ → String
  fingerprint_ne_empty : ∀ data, fingerprint data ≠ ""

/-- Modelled from the spec: the substitutable clock of §6, as read during one call:
by the expiry test of step 1, by the stamp of `StartedAt` (step 2) and by the stamp
of `CompletedAt` (steps 4 and 5). -/
structure Clock where
  atLookup : Time
  atStart : Time
  atEnd : Time
deriving DecidableEq, Repr

/-- The state a section update works on: the status registry, and the invocations of
collaborators made so far, oldest first. -/
structure Service (δ : Type) where
  registry : StatusRegistry
  invocations : List (Invocation δ)

/-- Number of invocations of the fetch function made so far. -/
def Service.fetchCount {δ : Type} (sv : Service δ) : Nat :=
  sv.invocations.countP Invocation.isFetch

/-- The data given to the storage write so far, oldest first. -/
def Service.written {δ : Type} (sv : Service δ) : List δ :=
  sv.invocations.filterMap fun
    | .write _ _ data => some data
    | .fetch _ _ => none

/-- Modelled from the spec: the body the coordinator runs for a section (§4.4 step 3:
the collaborator fetch, then the Change-Gated Persister of §4.3); the repository's
`updateSectionIfChanged`, called in attributes.go, is not among the sources. The
fingerprint of the fetched data is compared with the stored `ContentHash`: when equal
the write is skipped and `changed` is false, when different the data is written and
`changed` is true. Returns `changed` with the new fingerprint, or the error. -/
def updateSectionIfChanged {δ : Type} (c : Collaborators δ)
    (arg : CharacterUpdateSectionParams) (sv : Service δ) :
    Except String (Bool × String) × Service δ :=
  let sv1 := { sv with
    invocations := sv.invocations ++ [Invocation.fetch arg.CharacterID arg.Section] }
  match c.fetch with
  | .error e => (.error e, sv1)
  | .ok data =>
    let stored := (sv.registry.lookup arg.CharacterID arg.Section).ContentHash
    let hash := c.fingerprint data
    if hash = stored then
      (.ok (false, hash), sv1)
    else
      let sv2 := { sv1 with
        invocations :=
          sv1.invocations ++ [Invocation.write arg.CharacterID arg.Section data] }
      match c.write data with
      | some e => (.error e, sv2)
      | none => (.ok (true, hash), sv2)

/-- Modelled from the spec: the record written at step 2 of §4.4: `StartedAt` is
stamped, the other fields are carried over. -/
def SectionStatus.started (s : SectionStatus) (now : Time) : SectionStatus :=
  { s with StartedAt := now }

/-- Modelled from the spec: the record written at step 4 of §4.4 (success):
`CompletedAt` is stamped, `ErrorMessage` is emptied, `ContentHash` is updated if and
only if the data changed, `StartedAt` is cleared. -/
def SectionStatus.succeeded (s : SectionStatus) (now : Time) (changed : Bool)
    (hash : String) : SectionStatus :=
  { s with
    CompletedAt := now
    ErrorMessage := ""
    ContentHash := if changed then hash else s.ContentHash
    StartedAt := Time.zero }

/-- Modelled from the spec: the record written at step 5 of §4.4 (failure):
`CompletedAt` is stamped, `ErrorMessage` is the text of the error, `StartedAt` is
cleared, `ContentHash` is unchanged. -/
def SectionStatus.failed (s : SectionStatus) (now : Time) (e : String) : SectionStatus :=
  { s with
    CompletedAt := now
    ErrorMessage := e
    StartedAt := Time.zero }

/-- Modelled from the spec: `UpdateSectionIfNeeded` of §4.4, steps 1 to 6; the
repository's function of this name, called in mailupdate_test.go, is not among the
sources. The Go result `(changed, nil)` is `Except.ok changed`, a result with an
error is `Except.error`. -/
def UpdateSectionIfNeeded {δ : Type} (c : Collaborators δ) (clock : Clock)
    (arg : CharacterUpdateSectionParams) (sv : Service δ) :
    Except String Bool × Service δ :=
  let status := sv.registry.lookup arg.CharacterID arg.Section
  if !arg.ForceUpdate && !status.IsExpired clock.atLookup then
    (.ok false, sv)
  else
    let running := status.started clock.atStart
    let sv1 := { sv with registry := sv.registry.Set running }
    match updateSectionIfChanged c arg sv1 with
    | (.ok (changed, hash), sv2) =>
      let done := running.succeeded clock.atEnd changed hash
      (.ok changed, { sv2 with registry := sv2.registry.Set done })
    | (.error e, sv2) =>
      let failed := running.failed clock.atEnd e
      (.error e, { sv2 with registry := sv2.registry.Set failed })

/-! ## Scenario values used to evaluate the section update -/

/-- The registry of the scenario of spec §8: owner 42, section "wallet",
`Timeout` = 30 minutes, never completed. -/
def walletRegistry : StatusRegistry :=
  StatusRegistry.empty.Set
    { SectionStatus.zeroValue with
      EntityID := 42, SectionID := "wallet", SectionName := "Wallet", Timeout := 30 * Minute }

/-- The fingerprint used to evaluate the section update: the data, marked as a hash. -/
def sampleFingerprint (data : String) : String := "sha:" ++ data

/-- Collaborators whose fetch returns the data "D1", whose write succeeds and whose
fingerprint is `sampleFingerprint`. -/
def fetchD1 : Collaborators String :=
  { fetch := .ok "D1"
    write := fun _ => none
    fingerprint := sampleFingerprint
    fingerprint_ne_empty := fun data h => by
      have hlen := congrArg String.length h
      simp [sampleFingerprint] at hlen
      exact absurd hlen.1 (by decide) }

/-- Collaborators whose fetch returns the data "D1" and whose write fails. -/
def fetchD1WriteFails : Collaborators String :=
  { fetchD1 with write := fun _ => some "disk full" }

/-- Collaborators whose fetch fails. -/
def fetchFails : Collaborators String :=
  { fetchD1 with fetch := .error "timeout" }

/-- A clock that reads the same instant during the whole call. -/
def Clock.fixed (t : Time) : Clock := { atLookup := t, atStart := t, atEnd := t }

/-! ## `RenderESI` (internal/app/evenotification/evenotification.go)

The notification type constants named in the `switch` of `RenderESI` and the
renderers it dispatches to are declared in files that are not among the sources: the
value of each constant is given by a table `value`, the renderers by `Renderers`.
-/

/-- The notification type constants named in the `switch` of `RenderESI`. -/
inductive NotificationType where
  | BillOutOfMoneyMsg | BillPaidCorpAllMsg | CorpAllBillMsg
  | InfrastructureHubBillAboutToExpire | IHubDestroyedByBillFailure
  | CharAppAcceptMsg | CharAppRejectMsg | CharAppWithdrawMsg | CharLeftCorpMsg
  | CorpAppInvitedMsg | CorpAppNewMsg | CorpAppRejectCustomMsg
  | OrbitalAttacked | OrbitalReinforced
  | MoonminingExtractionStarted | MoonminingExtractionFinished
  | MoonminingAutomaticFracture | MoonminingExtractionCancelled | MoonminingLaserFired
  | OwnershipTransferred | StructureAnchoring | StructureDestroyed | StructureFuelAlert
  | StructureImpendingAbandonmentAssetsAtRisk | StructureItemsDelivered
  | StructureItemsMovedToSafety | StructureLostArmor | StructureLostShields
  | StructureOnline | StructureServicesOffline | StructuresReinforcementChanged
  | StructureUnanchoring | StructureUnderAttack | StructureWentHighPower
  | StructureWentLowPower
  | TowerAlertMsg | TowerResourceAlertMsg
  | AllWarSurrenderMsg | CorpWarSurrenderMsg | DeclareWar | WarAdopted | WarDeclared
  | WarHQRemovedFromSpace | WarInherited | WarInvalid | WarRetractedByConcord
  | EntosisCaptureStarted | SovAllClaimAcquiredMsg | SovAllClaimLostMsg
  | SovCommandNodeEventStarted | SovStructureDestroyed | SovStructureReinforced
deriving DecidableEq, Repr

/-- A call of a method of the `EveUniverseService` interface. -/
inductive EveUniverseCall where
  | GetOrCreateEntityESI (id : Int)
  | GetOrCreateMoonESI (id : Int)
  | GetOrCreateLocationESI (id : Int)
  | GetOrCreatePlanetESI (id : Int)
  | GetOrCreateSolarSystemESI (id : Int)
  | GetOrCreateTypeESI (id : Int)
  | ToEntities (ids : List Int)
deriving DecidableEq, Repr

/-- The renderer methods `RenderESI` dispatches to. -/
inductive Renderer where
  | renderBilling | renderCorporate | renderOrbital | renderMoonMining
  | renderStructure | renderTower | renderWar | renderSov
deriving DecidableEq, Repr

/-- What `RenderESI` and the renderers return: title and body (Go
`optional.Optional[string]`, empty = `none`) and the error (`nil` = `none`). -/
structure Rendered where
  title : Option String
  body : Option String
  err : Option String
deriving DecidableEq, Repr

/-- What happens during `RenderESI`: a renderer is called, or a method of the
`EveUniverseService` is called by a renderer. -/
inductive RenderEvent where
  | renderer (r : Renderer) (t : String) (text : String)
  | service (call : EveUniverseCall)
deriving DecidableEq, Repr

/-- The renderer methods of `EveNotificationService`, which are not among the
sources: each returns its result and the calls it made to the `EveUniverseService`.
Only `renderStructure` is given the timestamp. -/
structure Renderers where
  renderBilling : String → String → Rendered × List EveUniverseCall
  renderCorporate : String → String → Rendered × List EveUniverseCall
  renderOrbital : String → String → Rendered × List EveUniverseCall
  renderMoonMining : String → String → Rendered × List EveUniverseCall
  renderStructure : String → String → Time → Rendered × List EveUniverseCall
  renderTower : String → String → Rendered × List EveUniverseCall
  renderWar : String → String → Rendered × List EveUniverseCall
  renderSov : String → String → Rendered × List EveUniverseCall

/-- One `case` of the `switch`: reports whether `t` equals one of the listed
constants. -/
def caseMatches (value : NotificationType → String) (t : String)
    (constants : List NotificationType) : Bool :=
  constants.any fun c => decide (t = value c)

/-- The result of a dispatch to a renderer, with the events it stands for. -/
def dispatched (r : Renderer) (t text : String)
    (out : Rendered × List EveUniverseCall) : Rendered × List RenderEvent :=
  (out.1, RenderEvent.renderer r t text :: out.2.map RenderEvent.service)

open NotificationType in
/-- `RenderESI` renders title and body for all supported notification types and
returns them; returns empty title and body for unsupported notification types. The
second component lists the renderer and service calls made. -/
def RenderESI (value : NotificationType → String) (rs : Renderers)
    (type_ text : String) (timestamp : Time) : Rendered × List RenderEvent :=
  let t := type_
  if caseMatches value t [BillOutOfMoneyMsg, BillPaidCorpAllMsg, CorpAllBillMsg,
      InfrastructureHubBillAboutToExpire, IHubDestroyedByBillFailure] then
    dispatched .renderBilling t text (rs.renderBilling t text)
  else if caseMatches value t [CharAppAcceptMsg, CharAppRejectMsg, CharAppWithdrawMsg,
      CharLeftCorpMsg, CorpAppInvitedMsg, CorpAppNewMsg, CorpAppRejectCustomMsg] then
    dispatched .renderCorporate t text (rs.renderCorporate t text)
  else if caseMatches value t [OrbitalAttacked, OrbitalReinforced] then
    dispatched .renderOrbital t text (rs.renderOrbital t text)
  else if caseMatches value t [MoonminingExtractionStarted, MoonminingExtractionFinished,
      MoonminingAutomaticFracture, MoonminingExtractionCancelled, MoonminingLaserFired] then
    dispatched .renderMoonMining t text (rs.renderMoonMining t text)
  else if caseMatches value t [OwnershipTransferred, StructureAnchoring,
      StructureDestroyed, StructureFuelAlert, StructureImpendingAbandonmentAssetsAtRisk,
      StructureItemsDelivered, StructureItemsMovedToSafety, StructureLostArmor,
      StructureLostShields, StructureOnline, StructureServicesOffline,
      StructuresReinforcementChanged, StructureUnanchoring, StructureUnderAttack,
      StructureWentHighPower, StructureWentLowPower] then
    dispatched .renderStructure t text (rs.renderStructure t text timestamp)
  else if caseMatches value t [TowerAlertMsg, TowerResourceAlertMsg] then
    dispatched .renderTower t text (rs.renderTower t text)
  else if caseMatches value t [AllWarSurrenderMsg, CorpWarSurrenderMsg, DeclareWar,
      WarAdopted, WarDeclared, WarHQRemovedFromSpace, WarInherited, WarInvalid,
      WarRetractedByConcord] then
    dispatched .renderWar t text (rs.renderWar t text)
  else if caseMatches value t [EntosisCaptureStarted, SovAllClaimAcquiredMsg,
      SovAllClaimLostMsg, SovCommandNodeEventStarted, SovStructureDestroyed,
      SovStructureReinforced] then
    dispatched .renderSov t text (rs.renderSov t text)
  else
    ({ title := none, body := none, err := none }, [])

/-- A table of values for the constants, used to evaluate `RenderESI`: the value of
each constant is its identifier. -/
def identifierValue : NotificationType → String
  | .BillOutOfMoneyMsg => "BillOutOfMoneyMsg"
  | .BillPaidCorpAllMsg => "BillPaidCorpAllMsg"
  | .CorpAllBillMsg => "CorpAllBillMsg"
  | .InfrastructureHubBillAboutToExpire => "InfrastructureHubBillAboutToExpire"
  | .IHubDestroyedByBillFailure => "IHubDestroyedByBillFailure"
  | .CharAppAcceptMsg => "CharAppAcceptMsg"
  | .CharAppRejectMsg => "CharAppRejectMsg"
  | .CharAppWithdrawMsg => "CharAppWithdrawMsg"
  | .CharLeftCorpMsg => "CharLeftCorpMsg"
  | .CorpAppInvitedMsg => "CorpAppInvitedMsg"
  | .CorpAppNewMsg => "CorpAppNewMsg"
  | .CorpAppRejectCustomMsg => "CorpAppRejectCustomMsg"
  | .OrbitalAttacked => "OrbitalAttacked"
  | .OrbitalReinforced => "OrbitalReinforced"
  | .MoonminingExtractionStarted => "MoonminingExtractionStarted"
  | .MoonminingExtractionFinished => "MoonminingExtractionFinished"
  | .MoonminingAutomaticFracture => "MoonminingAutomaticFracture"
  | .MoonminingExtractionCancelled => "MoonminingExtractionCancelled"
  | .MoonminingLaserFired => "MoonminingLaserFired"
  | .OwnershipTransferred => "OwnershipTransferred"
  | .StructureAnchoring => "StructureAnchoring"
  | .StructureDestroyed => "StructureDestroyed"
  | .StructureFuelAlert => "StructureFuelAlert"
  | .StructureImpendingAbandonmentAssetsAtRisk => "StructureImpendingAbandonmentAssetsAtRisk"
  | .StructureItemsDelivered => "StructureItemsDelivered"
  | .StructureItemsMovedToSafety => "StructureItemsMovedToSafety"
  | .StructureLostArmor => "StructureLostArmor"
  | .StructureLostShields => "StructureLostShields"
  | .StructureOnline => "StructureOnline"
  | .StructureServicesOffline => "StructureServicesOffline"
  | .StructuresReinforcementChanged => "StructuresReinforcementChanged"
  | .StructureUnanchoring => "StructureUnanchoring"
  | .StructureUnderAttack => "StructureUnderAttack"
  | .StructureWentHighPower => "StructureWentHighPower"
  | .StructureWentLowPower => "StructureWentLowPower"
  | .TowerAlertMsg => "TowerAlertMsg"
  | .TowerResourceAlertMsg => "TowerResourceAlertMsg"
  | .AllWarSurrenderMsg => "AllWarSurrenderMsg"
  | .CorpWarSurrenderMsg => "CorpWarSurrenderMsg"
  | .DeclareWar => "DeclareWar"
  | .WarAdopted => "WarAdopted"
  | .WarDeclared => "WarDeclared"
  | .WarHQRemovedFromSpace => "WarHQRemovedFromSpace"
  | .WarInherited => "WarInherited"
  | .WarInvalid => "WarInvalid"
  | .WarRetractedByConcord => "WarRetractedByConcord"
  | .EntosisCaptureStarted => "EntosisCaptureStarted"
  | .SovAllClaimAcquiredMsg => "SovAllClaimAcquiredMsg"
  | .SovAllClaimLostMsg => "SovAllClaimLostMsg"
  | .SovCommandNodeEventStarted => "SovCommandNodeEventStarted"
  | .SovStructureDestroyed => "SovStructureDestroyed"
  | .SovStructureReinforced => "SovStructureReinforced"

/-- Renderers that return a fixed title and body and call one service method. -/
def sampleRenderers : Renderers :=
  let out : Rendered × List EveUniverseCall :=
    ({ title := some "title", body := some "body", err := none },
      [EveUniverseCall.GetOrCreateEntityESI 1])
  { renderBilling := fun _ _ => out
    renderCorporate := fun _ _ => out
    renderOrbital := fun _ _ => out
    renderMoonMining := fun _ _ => out
    renderStructure := fun _ _ _ => out
    renderTower := fun _ _ => out
    renderWar := fun _ _ => out
    renderSov := fun _ _ => out }

/-! ## `GetRouteESI` (internal/app/eveuniverseservice/map.go)

The type `app.EveSolarSystem`, its method `IsWormholeSpace`, `app.RoutePreferences()`
and `RoutePreference.String` are declared in files that are not among the sources,
and the route lookup is a call to the ESI client: they are the fields of `RouteEnv`,
over an arbitrary type `σ` of solar systems.
-/

/-- The answer of `RoutesApi.GetRouteOriginDestination`, which returns
`(ids, r, err)`. The generated client returns a `nil` error only for a response it
could decode, and an error with the response for a status of 400 and above. -/
inductive RouteAnswer where
  /-- The lookup succeeded: `err == nil`, `ids` is the route. -/
  | success (ids : List Int)
  /-- The server answered with a failure status: `err != nil`, `r.StatusCode = status`. -/
  | failure (status : Nat) (err : String)
  /-- No response was received: `err != nil` and `r == nil`. -/
  | noResponse (err : String)
deriving DecidableEq, Repr

/-- A call `GetRouteESI` makes to the outside. -/
inductive RouteCall where
  /-- The route lookup `GetRouteOriginDestination(destination.ID, origin.ID, flag)`. -/
  | GetRouteOriginDestination (destinationID originID : Int) (flag : String)
  /-- The resolution `GetOrCreateSolarSystemESI(id)` of one system of the route. -/
  | GetOrCreateSolarSystemESI (id : Int)
deriving DecidableEq, Repr

/-- What `GetRouteESI` needs from the rest of the program and from the remote service. -/
structure RouteEnv (σ : Type) where
  /-- The field `ID` of `app.EveSolarSystem`. -/
  ID : σ → Int
  /-- The method `IsWormholeSpace` of `app.EveSolarSystem`. -/
  IsWormholeSpace : σ → Bool
  /-- The list `app.RoutePreferences()`. -/
  RoutePreferences : List String
  /-- The method `String` of `app.RoutePreference`. -/
  flagString : String → String
  /-- The ESI route lookup. -/
  GetRouteOriginDestination : Int → Int → String → RouteAnswer
  /-- `EveUniverseService.GetOrCreateSolarSystemESI`, as it answers during the call. -/
  GetOrCreateSolarSystemESI : Int → Except String σ
  /-- The order in which the goroutines of the `errgroup` finish (indexes into `ids`). -/
  finished : List Nat

/-- What a Go function returning `([]*app.EveSolarSystem, error)` does: it returns a
slice (`none` = the `nil` slice) and an error (`none` = `nil`), or it panics. -/
inductive RouteResult (σ : Type) where
  | returned (systems : Option (List σ)) (err : Option String)
  | panicked (reason : String)
deriving DecidableEq, Repr

/-- Go `slices.Index`: the index of the first occurrence of `x`, or -1. -/
def slicesIndex (l : List String) (x : String) : Int :=
  if l.indexOf x < l.length then (l.indexOf x : Int) else -1

/-- The error text of an answer, if it is one. -/
def errorOf {α : Type} : Except String α → Option String
  | .error e => some e
  | .ok _ => none

/-- Go `errgroup.Group.Wait`: the first error recorded, that is the error of the
goroutine that failed first in the order `finished`; `none` when none failed. -/
def errgroupWait {α : Type} (finished : List Nat) (results : List (Except String α)) :
    Option String :=
  match finished.findSome? fun i => (results.get? i).bind errorOf with
  | some e => some e
  | none => results.findSome? errorOf

/-- `GetRouteESI` returns a route between two solar systems. When no route can be
found it returns an empty slice. The second component lists the calls made. Each
goroutine of the `errgroup` has its own `i` and `id` (loop variables are per iteration
from Go 1.22 on; the package uses the iterators of Go 1.23), so `systems[i]` is the
system obtained for `ids[i]`. -/
def GetRouteESI {σ : Type} (env : RouteEnv σ) (destination origin : σ) (flag : String) :
    RouteResult σ × List RouteCall :=
  if slicesIndex env.RoutePreferences flag = -1 then
    (.returned none (some ("invalid flag: " ++ flag)), [])
  else if env.ID destination = env.ID origin then
    (.returned (some [origin]) none, [])
  else if env.IsWormholeSpace destination || env.IsWormholeSpace origin then
    (.returned (some []) none, [])
  else
    let lookup := RouteCall.GetRouteOriginDestination (env.ID destination) (env.ID origin)
      (env.flagString flag)
    match env.GetRouteOriginDestination (env.ID destination) (env.ID origin)
        (env.flagString flag) with
    | .noResponse _ => (.panicked "nil pointer dereference", [lookup])
    | .failure status err =>
      if status = 404 then
        (.returned (some []) none, [lookup])
      else
        (.returned none (some err), [lookup])
    | .success ids =>
      let results := ids.map env.GetOrCreateSolarSystemESI
      let calls := lookup :: ids.map RouteCall.GetOrCreateSolarSystemESI
      match errgroupWait env.finished results with
      | some err => (.returned none (some err), calls)
      | none =>
        let systems := results.filterMap fun
          | .ok system => some system
          | .error _ => none
        (.returned (some systems) none, calls)

/-- A route environment used to evaluate `GetRouteESI`: systems are their IDs, the
systems 31000000 to 31999999 are wormhole space, and the remote service knows no route
(status 404). -/
def sampleRouteEnv : RouteEnv Int :=
  { ID := fun system => system
    IsWormholeSpace := fun system => decide (31000000 ≤ system ∧ system < 32000000)
    RoutePreferences := ["shortest", "secure", "insecure"]
    flagString := fun flag => flag
    GetRouteOriginDestination := fun _ _ _ => .failure 404 "Not Found"
    GetOrCreateSolarSystemESI := fun id => .ok id
    finished := [] }

/-- A route environment in which the remote service answers with the route
30000142, 30000144, 30002187 and every system resolves. -/
def sampleRouteEnvFound : RouteEnv Int :=
  { sampleRouteEnv with
    GetRouteOriginDestination := fun _ _ _ => .success [30000142, 30000144, 30002187] }

/-- A route environment in which the remote service answers with the route
30000142, 30000144, 30002187 and the system 30000144 cannot be resolved. -/
def sampleRouteEnvUnresolved : RouteEnv Int :=
  { sampleRouteEnvFound with
    GetOrCreateSolarSystemESI := fun id =>
      if id = 30000144 then .error "not found" else .ok id }

/-! ## Single-flight keys of the entity creations (internal/app/eveuniverseservice/map.go) -/

/-- Go `%d` for a natural number: its decimal digits, most significant first. -/
def formatNat (n : Nat) : List Char :=
  if n = 0 then ['0'] else (Nat.digits 10 n).reverse.map Nat.digitChar

/-- Go `%d` for an integer: a minus sign for a negative number, then the decimal
digits of its absolute value. -/
def formatInt (n : Int) : String :=
  if n < 0 then ⟨'-' :: formatNat n.natAbs⟩ else ⟨formatNat n.natAbs⟩

/-- The value of the decimal digit `c`. -/
def charDigit (c : Char) : Nat := c.toNat - 48

/-- The entities created from ESI by the functions of map.go that go through the
single-flight group. -/
inductive EntityKind where
  | region | constellation | solarSystem | planet | moon
deriving DecidableEq, Repr

/-- The key `fmt.Sprintf("create…FromESI-%d", id)` each creation passes to
`s.sfg.Do`: `createRegionFromESI`, `createConstellationFromESI`,
`createSolarSystemFromESI`, `createPlanetFromESI` and `createMoonFromESI`. -/
def singleflightKey : EntityKind → Int → String
  | .region, id => "createRegionFromESI-" ++ formatInt id
  | .constellation, id => "createConstellationFromESI-" ++ formatInt id
  | .solarSystem, id => "createSolarSystemFromESI-" ++ formatInt id
  | .planet, id => "createPlanetFromESI-" ++ formatInt id
  | .moon, id => "createMoonFromESI-" ++ formatInt id

/-- The creations a creation calls inside the function it gives to `s.sfg.Do`, while
it holds its key: `createConstellationFromESI` calls `GetOrCreateRegionESI`,
`createSolarSystemFromESI` calls `GetOrCreateConstellationESI`, `createPlanetFromESI`
and `createMoonFromESI` call `GetOrCreateSolarSystemESI`; each `GetOrCreate…ESI` may
call the creation of that kind. -/
def createsInside : EntityKind → List EntityKind
  | .region => []
  | .constellation => [.region]
  | .solarSystem => [.constellation]
  | .planet => [.solarSystem]
  | .moon => [.solarSystem]

/-- Depth of the nesting of creations below a kind. -/
def EntityKind.depth : EntityKind → Nat
  | .region => 0
  | .constellation => 1
  | .solarSystem => 2
  | .planet => 3
  | .moon => 3

/-! ## `updateAttributesESI` (internal/app/characterservice/attributes.go)

The constant `app.SectionAttributes`, the ESI call and the storage are not among the
sources: they are the fields of `AttributesEnv`.
-/

/-- Go `esi.GetCharactersCharacterIdAttributesOk`: the attributes as ESI returns them. -/
structure GetCharactersCharacterIdAttributesOk where
  BonusRemaps : Int
  Charisma : Int
  Intelligence : Int
  LastRemapDate : Time
  Memory : Int
  Perception : Int
  Willpower : Int
deriving DecidableEq, Repr

/-- Go `storage.UpdateOrCreateCharacterAttributesParams`. -/
structure UpdateOrCreateCharacterAttributesParams where
  CharacterID : Int
  BonusRemaps : Int
  Charisma : Int
  Intelligence : Int
  LastRemapDate : Time
  Memory : Int
  Perception : Int
  Willpower : Int
deriving DecidableEq, Repr

/-- What a Go call does: it returns a value, or it panics. -/
inductive Outcome (α : Type) where
  | returned (value : α)
  | panicked (message : String)
deriving DecidableEq, Repr

/-- What `updateAttributesESI` needs from the rest of the program. -/
structure AttributesEnv where
  /-- The constant `app.SectionAttributes`. -/
  SectionAttributes : String
  /-- `SkillsApi.GetCharactersCharacterIdAttributes`, as it answers for a character. -/
  GetCharactersCharacterIdAttributes :
    Int → Except String GetCharactersCharacterIdAttributesOk
  /-- `storage.UpdateOrCreateCharacterAttributes`: `none` for success, or an error. -/
  UpdateOrCreateCharacterAttributes : UpdateOrCreateCharacterAttributesParams → Option String
  /-- The content fingerprint of the fetched attributes. -/
  fingerprint : GetCharactersCharacterIdAttributesOk → String
  /-- A fingerprint is never the empty text. -/
  fingerprint_ne_empty : ∀ attributes, fingerprint attributes ≠ ""

/-- The two callbacks `updateAttributesESI` gives to `updateSectionIfChanged`: the
fetch asks ESI for the attributes of the character, the update converts them to the
storage parameters and writes them. -/
def attributesCallbacks (env : AttributesEnv) (characterID : Int) :
    Collaborators GetCharactersCharacterIdAttributesOk :=
  { fetch := env.GetCharactersCharacterIdAttributes characterID
    write := fun attributes =>
      env.UpdateOrCreateCharacterAttributes
        { CharacterID := characterID
          BonusRemaps := attributes.BonusRemaps
          Charisma := attributes.Charisma
          Intelligence := attributes.Intelligence
          LastRemapDate := attributes.LastRemapDate
          Memory := attributes.Memory
          Perception := attributes.Perception
          Willpower := attributes.Willpower }
    fingerprint := env.fingerprint
    fingerprint_ne_empty := env.fingerprint_ne_empty }

/-- `updateAttributesESI`: panics when called with another section than
`SectionAttributes`, and otherwise returns what `updateSectionIfChanged` returns for
the two callbacks. -/
def updateAttributesESI (env : AttributesEnv) (arg : CharacterUpdateSectionParams)
    (sv : Service GetCharactersCharacterIdAttributesOk) :
    Outcome (Except String Bool) × Service GetCharactersCharacterIdAttributesOk :=
  if arg.Section ≠ env.SectionAttributes then
    (.panicked "called with wrong section", sv)
  else
    let result := updateSectionIfChanged (attributesCallbacks env arg.CharacterID) arg sv
    (.returned (result.1.map Prod.fst), result.2)

/-- An environment used to evaluate `updateAttributesESI`: the section is called
"attributes", ESI answers with fixed attributes and the storage accepts them. -/
def sampleAttributesEnv : AttributesEnv :=
  { SectionAttributes := "attributes"
    GetCharactersCharacterIdAttributes := fun _ =>
      .ok { BonusRemaps := 1, Charisma := 20, Intelligence := 21, LastRemapDate := ⟨10 ^ 18⟩,
            Memory := 22, Perception := 23, Willpower := 24 }
    UpdateOrCreateCharacterAttributes := fun _ => none
    fingerprint := fun attributes => sampleFingerprint (formatInt attributes.Charisma)
    fingerprint_ne_empty := fun attributes h => by
      have hlen := congrArg String.length h
      simp [sampleFingerprint] at hlen
      exact absurd hlen.1 (by decide) }

/-! ## `Navigator` (internal/widget/navigator.go)

A page is an `*AppBar`; it is identified by a number, and the state of the pages
(their `Hidden` flag and their `Navigator` field) is kept with the navigator. From the
fyne library: `Container.Add` appends an object to `Objects`, `Container.Remove`
removes the first occurrence of an object from `Objects`, `Show` and `Hide` clear and
set the `Hidden` flag of a widget. The calls to the `NavBar` are recorded; what they
do to the `NavBar`, and the panic `PushHideNavBar` documents, are outside the model.
-/

/-- A call of a method of the `NavBar`. -/
inductive NavBarCall where
  | ShowBar
  | HideBar
deriving DecidableEq, Repr

/-- The type `Navigator`, with the state of the pages it handles. -/
structure Navigator where
  /-- Whether the field `NavBar` is set (not `nil`). -/
  hasNavBar : Bool
  /-- The objects of the field `stack`: the stack of pages, the first is the root page. -/
  stack : List Nat
  /-- The `Hidden` flag of every page. -/
  hidden : Nat → Bool
  /-- Whether the field `Navigator` of a page points to this navigator. -/
  attached : Nat → Bool
  /-- The calls made to the `NavBar`, oldest first. -/
  navBarCalls : List NavBarCall

namespace Navigator

/-- `NewNavigatorWithAppBar` returns a new Navigator and defines the root page, when
one is given (`ab != nil`). -/
def NewNavigatorWithAppBar (ab : Option Nat) (hidden attached : Nat → Bool) : Navigator :=
  { hasNavBar := false
    stack :=
      match ab with
      | some page => [page]
      | none => []
    hidden := hidden
    attached := attached
    navBarCalls := [] }

/-- `NewNavigator` returns a new Navigator. -/
def NewNavigator (hidden attached : Nat → Bool) : Navigator :=
  NewNavigatorWithAppBar none hidden attached

def IsEmpty (n : Navigator) : Bool :=
  decide (n.stack.length = 0)

/-- `topPage` is `n.stack.Objects[len(n.stack.Objects)-1]`: `none` stands for the
panic of the index expression on an empty stack. -/
def topPage (n : Navigator) : Option Nat :=
  n.stack.getLast?

def push (n : Navigator) (ab : Nat) (hideNavBar : Bool) : Outcome Navigator :=
  let n1 := { n with attached := Function.update n.attached ab true }
  let n2 :=
    if hideNavBar && n1.hasNavBar then
      { n1 with navBarCalls := n1.navBarCalls ++ [NavBarCall.HideBar] }
    else n1
  match n2.topPage with
  | none => .panicked "index out of range [-1]"
  | some previous =>
    let n3 := { n2 with stack := n2.stack ++ [ab] }
    .returned { n3 with hidden := Function.update n3.hidden previous true }

/-- `Push` adds a new page and shows it. -/
def Push (n : Navigator) (ab : Nat) : Outcome Navigator :=
  n.push ab false

/-- `PushHideNavBar` adds a new page and shows it while hiding the navbar. -/
def PushHideNavBar (n : Navigator) (ab : Nat) : Outcome Navigator :=
  n.push ab true

def Set (n : Navigator) (ab : Nat) : Navigator :=
  { n with stack := [ab] }

/-- The end of `Pop` and of `PopAll`: the top page is shown, and the bar of the
`NavBar`, if there is one. -/
def showTop (n : Navigator) : Outcome Navigator :=
  match n.topPage with
  | none => .panicked "index out of range [-1]"
  | some page =>
    let n1 := { n with hidden := Function.update n.hidden page false }
    .returned
      (if n1.hasNavBar then
        { n1 with navBarCalls := n1.navBarCalls ++ [NavBarCall.ShowBar] }
      else n1)

/-- `Pop` removes the current page and shows the previous page. Does nothing when the
root page is shown. -/
def Pop (n : Navigator) : Outcome Navigator :=
  if n.stack.length < 2 then
    .returned n
  else
    match n.topPage with
    | none => .panicked "index out of range [-1]"
    | some top => showTop { n with stack := n.stack.erase top }

/-- The loop of `PopAll`: while the stack holds more than one page, the top page is
removed with `Container.Remove`. -/
def removeAdditional (stack : List Nat) : List Nat :=
  if h : 1 < stack.length then
    removeAdditional (stack.erase (stack.getLast (List.ne_nil_of_length_pos (by omega))))
  else
    stack
termination_by stack.length
decreasing_by
  rw [List.length_erase_of_mem (List.getLast_mem _)]
  omega

/-- `PopAll` removes all additional pages and shows the root page. Does nothing when
the root page is shown. -/
def PopAll (n : Navigator) : Outcome Navigator :=
  if n.stack.length = 0 then
    .returned n
  else
    showTop { n with stack := removeAdditional n.stack }

end Navigator

/-- A navigator used to evaluate the operations: the pages 1 (root), 2 and 3, of which
only the top page 3 is visible, and no `NavBar`. -/
def sampleNavigator : Navigator :=
  { hasNavBar := false
    stack := [1, 2, 3]
    hidden := fun page => decide (page = 1 ∨ page = 2)
    attached := fun page => decide (page = 2 ∨ page = 3)
    navBarCalls := [] }

/-! ## Row-wrap layout (internal/layout/rowwrap.go)

Sizes and positions are `float32` in the program. The layout is embedded over a type
`F` of numbers with the operations it uses, given by `Arith F`; the operations of the
program are `float32Arith`, defined below on a model of `float32`. What is proved for
every `Arith F` holds whatever the operations compute. The objects of a list are taken
to be distinct objects.
-/

/-- The operations on numbers the layout uses: the literal `0`, `+`, `*`, the
conversion `float32(rows)` of a count, and the comparison `>`. -/
structure Arith (F : Type) where
  zero : F
  add : F → F → F
  mul : F → F → F
  ofNat : Nat → F
  gt : F → F → Bool

/-- Go `fyne.Size`. -/
structure Size (F : Type) where
  Width : F
  Height : F
deriving DecidableEq, Repr

/-- Go `fyne.Position`. -/
structure Position (F : Type) where
  X : F
  Y : F
deriving DecidableEq, Repr

/-- Go `fyne.NewPos`. -/
def NewPos {F : Type} (x y : F) : Position F := { X := x, Y := y }

/-- Go `fyne.Position.Add`: the position moved by the vector `v`. -/
def Position.Add {F : Type} (ar : Arith F) (p v : Position F) : Position F :=
  { X := ar.add p.X v.X, Y := ar.add p.Y v.Y }

/-- A `fyne.CanvasObject`, as far as the layout looks at it: what `Visible()` and
`MinSize()` return, the size set by `Resize` and the position set by `Move`. -/
structure CanvasObject (F : Type) where
  visible : Bool
  minSize : Size F
  size : Size F
  position : Position F
deriving DecidableEq, Repr

/-- Go `CanvasObject.Resize`. -/
def CanvasObject.Resize {F : Type} (o : CanvasObject F) (size : Size F) : CanvasObject F :=
  { o with size := size }

/-- Go `CanvasObject.Move`. -/
def CanvasObject.Move {F : Type} (o : CanvasObject F) (pos : Position F) : CanvasObject F :=
  { o with position := pos }

/-- The type `rowWrapLayout`. -/
structure rowWrapLayout (F : Type) where
  rowCount : Nat
  horizontalPadding : F
  verticalPadding : F
deriving DecidableEq, Repr

/-- `NewRowWrapLayoutWithCustomPadding`. -/
def NewRowWrapLayoutWithCustomPadding {F : Type} (horizontal vertical : F) :
    rowWrapLayout F :=
  { rowCount := 0, horizontalPadding := horizontal, verticalPadding := vertical }

/-- The loop of `Layout` from the position `pos` and the row count `rows` on: returns
the objects as the loop leaves them, and the row count at its end. -/
def layoutLoop {F : Type} (ar : Arith F) (l : rowWrapLayout F) (containerSize : Size F)
    (rowHeight : F) : Position F → Nat → List (CanvasObject F) →
    List (CanvasObject F) × Nat
  | _, rows, [] => ([], rows)
  | pos, rows, o :: objects =>
    if !o.visible then
      let rest := layoutLoop ar l containerSize rowHeight pos rows objects
      (o :: rest.1, rest.2)
    else
      let size := o.minSize
      let w := ar.add size.Width l.horizontalPadding
      let wrap := ar.gt (ar.add pos.X w) containerSize.Width
      let pos1 :=
        if wrap then
          NewPos ar.zero (ar.mul (ar.ofNat rows) (ar.add rowHeight l.verticalPadding))
        else pos
      let rows1 := if wrap then rows + 1 else rows
      let rest := layoutLoop ar l containerSize rowHeight
        (pos1.Add ar (NewPos w ar.zero)) rows1 objects
      (((o.Resize size).Move pos1) :: rest.1, rest.2)

/-- `rowWrapLayout.Layout`: returns the layout, with the row count recorded, and the
objects as `Layout` leaves them. -/
def rowWrapLayout.Layout {F : Type} (ar : Arith F) (l : rowWrapLayout F)
    (objects : List (CanvasObject F)) (containerSize : Size F) :
    rowWrapLayout F × List (CanvasObject F) :=
  match objects with
  | [] => (l, [])
  | first :: _ =>
    let rowHeight := first.minSize.Height
    let done := layoutLoop ar l containerSize rowHeight (NewPos ar.zero ar.zero) 1 objects
    ({ l with rowCount := done.2 }, done.1)

/-! ## The numbers of the layout: Go `float32`

A `float32` is an IEEE 754 binary32 number. A finite one is a multiple of 2^-149 with
a significand of at most 24 bits and a magnitude below 2^128; it is kept here as the
integer that counts the units of 2^-149. The result of `+`, of `*` and of the
conversion from `int` is the exact result rounded to the nearest `float32`, a tie
going to the even significand, and an infinity when the rounded magnitude reaches
2^128. The two zeros are kept as one value and the NaNs as one value: `+`, `*`, `>`
and the conversion never tell two zeros or two NaNs apart.
-/

/-- The exponent of the spacing of `float32` at a magnitude of `n` units: the least
`k` with `n < 2 ^ (24 + k)`, found by halving `n`. -/
def gridShiftAux : Nat → Nat → Nat
  | 0, _ => 0
  | fuel + 1, n => if n < 2 ^ 24 then 0 else gridShiftAux fuel (n / 2) + 1

/-- The exponent of the spacing of `float32` at a magnitude of `n` units of 2^-149:
around `n` the `float32` values are the multiples of `2 ^ gridShift n` units. -/
def gridShift (n : Nat) : Nat := gridShiftAux n n

/-- The multiple of `2 ^ s` nearest to `N`; of two nearest ones, the even multiple. -/
def roundToGrid (s N : Nat) : Nat :=
  let q := N / 2 ^ s
  let r := N % 2 ^ s
  (if 2 ^ s < 2 * r ∨ (2 * r = 2 ^ s ∧ q % 2 = 1) then q + 1 else q) * 2 ^ s

/-- Rounding of a magnitude to `float32`. The magnitude is `N` units of
2^-(149 + `shift`); the result counts units of 2^-149. The spacing is that of the
magnitude, and not finer than one unit of 2^-149 (the subnormal numbers). -/
def roundToEven (N shift : Nat) : Nat :=
  roundToGrid (max (gridShift N) shift) N / 2 ^ shift

/-- The magnitude 2^128, in units of 2^-149: a rounded magnitude that reaches it is an
infinity. -/
def maxMagnitude : Nat := 2 ^ 128 * 2 ^ 149

/-- A `float32` before the check that it is one: a finite number of `n` units of
2^-149, an infinity with its sign, or NaN. -/
inductive RawFloat32 where
  | finite (n : Int)
  | inf (negative : Bool)
  | nan
deriving DecidableEq, Repr

/-- Whether the value is a `float32`: a finite one is below 2^128 in magnitude and has
a significand of at most 24 bits. -/
def RawFloat32.isValue : RawFloat32 → Bool
  | .finite n =>
    decide (n.natAbs < maxMagnitude) && decide (n.natAbs % 2 ^ gridShift n.natAbs = 0)
  | .inf _ => true
  | .nan => true

/-- The `float32` nearest to the number of sign `negative` and magnitude `N` units of
2^-(149 + `shift`). -/
def RawFloat32.round (negative : Bool) (N shift : Nat) : RawFloat32 :=
  if roundToEven N shift < maxMagnitude then
    .finite (if negative then -(roundToEven N shift : Int) else (roundToEven N shift : Int))
  else
    .inf negative

/-- The `float32` nearest to `N` units of 2^-(149 + `shift`). -/
def RawFloat32.ofExact (N : Int) (shift : Nat) : RawFloat32 :=
  round (decide (N < 0)) N.natAbs shift

/-- Go `a + b` on `float32`. -/
def RawFloat32.add : RawFloat32 → RawFloat32 → RawFloat32
  | .finite a, .finite b => ofExact (a + b) 0
  | .finite _, .inf s => .inf s
  | .inf s, .finite _ => .inf s
  | .inf s, .inf t => if s = t then .inf s else .nan
  | .nan, _ => .nan
  | _, .nan => .nan

/-- Go `a * b` on `float32`: the product of two counts of units of 2^-149 counts units
of 2^-298. -/
def RawFloat32.mul : RawFloat32 → RawFloat32 → RawFloat32
  | .finite a, .finite b => ofExact (a * b) 149
  | .finite a, .inf s => if a = 0 then .nan else .inf (xor (decide (a < 0)) s)
  | .inf s, .finite b => if b = 0 then .nan else .inf (xor s (decide (b < 0)))
  | .inf s, .inf t => .inf (xor s t)
  | .nan, _ => .nan
  | _, .nan => .nan

/-- Go `a < b` on `float32`: false when one of the two is NaN. -/
def RawFloat32.lt : RawFloat32 → RawFloat32 → Bool
  | .finite a, .finite b => decide (a < b)
  | .finite _, .inf s => !s
  | .inf s, .finite _ => s
  | .inf s, .inf t => s && !t
  | .nan, _ => false
  | _, .nan => false

/-- Go `a <= b` on `float32`: false when one of the two is NaN. -/
def RawFloat32.le : RawFloat32 → RawFloat32 → Bool
  | .finite a, .finite b => decide (a ≤ b)
  | .finite _, .inf s => !s
  | .inf s, .finite _ => s
  | .inf s, .inf t => s || !t
  | .nan, _ => false
  | _, .nan => false

/-- Go `float32`. -/
structure Float32 where
  raw : RawFloat32
  isValue : raw.isValue = true
deriving DecidableEq

/-- The `float32` of a value that passes the check; the results of the operations
below always pass it. -/
def Float32.ofRaw (x : RawFloat32) : Float32 :=
  if h : x.isValue = true then ⟨x, h⟩ else ⟨.nan, rfl⟩

/-- Go `float32(n)` of an integer. -/
def Float32.ofInt (n : Int) : Float32 := ofRaw (RawFloat32.ofExact (n * 2 ^ 149) 0)

/-- The `float32` 0. -/
def Float32.zero : Float32 := ⟨.finite 0, rfl⟩

/-- The `float32` +Inf. -/
def Float32.infinity : Float32 := ⟨.inf false, rfl⟩

/-- Go `a + b` on `float32`. -/
def Float32.add (a b : Float32) : Float32 := ofRaw (a.raw.add b.raw)

/-- Go `a * b` on `float32`. -/
def Float32.mul (a b : Float32) : Float32 := ofRaw (a.raw.mul b.raw)

/-- Go `a > b` on `float32`. -/
def Float32.gt (a b : Float32) : Bool := b.raw.lt a.raw

/-- Go `a <= b` on `float32`, as a proposition. -/
@[reducible] def Float32.le (a b : Float32) : Prop := a.raw.le b.raw = true

/-- The number is finite: neither an infinity nor NaN. -/
def Float32.isFinite (a : Float32) : Bool :=
  match a.raw with
  | .finite _ => true
  | _ => false

/-- The sum of `a` and `b` as it is before rounding is at most `c`; said of finite
numbers only. -/
def Float32.exactSumLe (a b c : Float32) : Bool :=
  match a.raw, b.raw, c.raw with
  | .finite x, .finite y, .finite z => decide (x + y ≤ z)
  | _, _, _ => false

/-- The arithmetic of the program: `float32`. -/
def float32Arith : Arith Float32 :=
  { zero := Float32.zero
    add := Float32.add
    mul := Float32.mul
    ofNat := fun k => Float32.ofInt k
    gt := Float32.gt }

/-- The `y` of the row `k`, rows counted from 0: the first row is at the `0` of
`fyne.NewPos(0, 0)`, the row begun when the counter `rows` is `k` ≥ 1 is at
`float32(k) * (rowHeight + verticalPadding)`. -/
def rowY {F : Type} (ar : Arith F) (l : rowWrapLayout F) (rowHeight : F) (k : Nat) : F :=
  if k = 0 then ar.zero else ar.mul (ar.ofNat k) (ar.add rowHeight l.verticalPadding)

/-- Facts on the order `le` of an arithmetic that the statements on positions rely on.
They are about sums of numbers that are ≥ 0, and `float32` has them
(`float32Arith_ordered`): rounding to the nearest value keeps the order. -/
structure Arith.Ordered {F : Type} (ar : Arith F) (le : F → F → Prop) : Prop where
  zero_le_zero : le ar.zero ar.zero
  le_trans : ∀ a b c, le a b → le b c → le a c
  zero_add : ∀ a, ar.add ar.zero a = a
  add_zero : ∀ a, ar.add a ar.zero = a
  le_add_right : ∀ a b, le ar.zero a → le ar.zero b → le a (ar.add a b)
  add_le_add_left : ∀ a b c, le ar.zero a → le ar.zero b → le ar.zero c → le b c →
    le (ar.add a b) (ar.add a c)
  le_of_not_gt : ∀ a c w, le ar.zero a → le c w → ar.gt a w = false → le a w

/-- A visible object with the minimum size `width` × `height`, not yet laid out. -/
def visibleObject (width height : Int) : CanvasObject Float32 :=
  { visible := true
    minSize := { Width := Float32.ofInt width, Height := Float32.ofInt height }
    size := { Width := Float32.zero, Height := Float32.zero }
    position := { X := Float32.zero, Y := Float32.zero } }

/-- A hidden object with the minimum size `width` × `height`, at position (7, 7). -/
def hiddenObject (width height : Int) : CanvasObject Float32 :=
  { visible := false
    minSize := { Width := Float32.ofInt width, Height := Float32.ofInt height }
    size := { Width := Float32.ofInt 1, Height := Float32.ofInt 1 }
    position := { X := Float32.ofInt 7, Y := Float32.ofInt 7 } }

/-- A visible object of minimum width `width` whose minimum height is +Inf. -/
def tallObject (width : Int) : CanvasObject Float32 :=
  { visible := true
    minSize := { Width := Float32.ofInt width, Height := Float32.infinity }
    size := { Width := Float32.zero, Height := Float32.zero }
    position := { X := Float32.zero, Y := Float32.zero } }

/-- The layout with the paddings `horizontal` and `vertical`, given as integers. -/
def paddedLayout (horizontal vertical : Int) : rowWrapLayout Float32 :=
  NewRowWrapLayoutWithCustomPadding (Float32.ofInt horizontal) (Float32.ofInt vertical)

/-- The positions of the objects, as pairs (`x`, `y`). -/
def positions {F : Type} (objects : List (CanvasObject F)) : List (F × F) :=
  objects.map fun o => (o.position.X, o.position.Y)

/-- The object `b` is placed right after the object `a`: as the next one in the row of
`a`, at the `x` of `a` plus the sum of the width of `a` and the horizontal padding, or
as the first one of the next row, at `x` = 0. -/
def PlacedAfter {F : Type} (ar : Arith F) (l : rowWrapLayout F) (rowHeight : F)
    (a b : CanvasObject F) : Prop :=
  (b.position.Y = a.position.Y ∧
    b.position.X = ar.add a.position.X (ar.add a.minSize.Width l.horizontalPadding)) ∨
  (b.position.X = ar.zero ∧
    ∃ k, a.position.Y = rowY ar l rowHeight k ∧ b.position.Y = rowY ar l rowHeight (k + 1))

/-! ## Facts about the time model -/

theorem wrapInt64_of_inRange (x : Int) (hlo : -(2 ^ 63) ≤ x) (hhi : x < 2 ^ 63) :
    wrapInt64 x = x := by
  unfold wrapInt64
  rw [Int.emod_eq_of_lt (by omega) (by omega)]
  omega

theorem Time.IsZero_iff (t : Time) : t.IsZero = true ↔ t = Time.zero := by
  cases t with
  | mk n => simp [Time.IsZero, Time.zero]

theorem Time.IsZero_eq_false_iff (t : Time) : t.IsZero = false ↔ t ≠ Time.zero := by
  rw [← Bool.not_eq_true, Time.IsZero_iff]

theorem wrapInt64_double (d : Int) (hlo : -(2 ^ 62) ≤ d) (hhi : d < 2 ^ 62) :
    Duration.mul d 2 = 2 * d := by
  unfold Duration.mul
  rw [wrapInt64_of_inRange _ (by omega) (by omega)]
  ring

/-! ## Section status predicates -/

theorem SectionStatus.IsExpired_eq_true_iff (s : SectionStatus) (now : Time) :
    s.IsExpired now = true ↔
      (s.CompletedAt = Time.zero ∨ s.CompletedAt.ns + s.Timeout < now.ns) := by
  unfold SectionStatus.IsExpired
  by_cases hz : s.CompletedAt.IsZero = true
  · rw [if_pos hz]
    simp [(Time.IsZero_iff _).mp hz]
  · have hne : s.CompletedAt ≠ Time.zero := fun h => hz ((Time.IsZero_iff _).mpr h)
    simp [hz, hne, Time.After, Time.Add]

theorem SectionStatus.IsCurrent_eq_true_iff (s : SectionStatus) (now : Time) :
    s.IsCurrent now = true ↔
      (s.CompletedAt ≠ Time.zero ∧ now.ns < s.CompletedAt.ns + Duration.mul s.Timeout 2) := by
  unfold SectionStatus.IsCurrent
  by_cases hz : s.CompletedAt.IsZero = true
  · rw [if_pos hz]
    simp [(Time.IsZero_iff _).mp hz]
  · have hne : s.CompletedAt ≠ Time.zero := fun h => hz ((Time.IsZero_iff _).mpr h)
    simp [hz, hne, Time.Before, Time.Add]

/-- C1: `IsExpired` holds exactly when `CompletedAt` is the zero time or `now` is
strictly after `CompletedAt + Timeout`; a status with the same `CompletedAt` and
`Timeout` gives the same answer, whatever its other fields are. -/
theorem IsExpired_iff_missing_or_after (s : SectionStatus) (now : Time) :
    (s.IsExpired now = true ↔
      (s.CompletedAt = Time.zero ∨ s.CompletedAt.ns + s.Timeout < now.ns)) ∧
    (∀ s' : SectionStatus, s'.CompletedAt = s.CompletedAt → s'.Timeout = s.Timeout →
      s'.IsExpired now = s.IsExpired now) := by
  refine ⟨s.IsExpired_eq_true_iff now, ?_⟩
  intro s' hc ht
  simp [SectionStatus.IsExpired, hc, ht]

/-- C1, the scenario of the claim: with `Timeout` = 30 minutes and `CompletedAt` = `t0`
(here 10^18 ns after the zero time) the status is not expired at `t0` + 10 minutes
and is expired at `t0` + 31 minutes, also when an error message, a start time and a
content hash are set. -/
theorem IsExpired_iff_missing_or_after_witness :
    SectionStatus.IsExpired
        { SectionStatus.zeroValue with
            CompletedAt := ⟨10 ^ 18⟩, Timeout := 30 * Minute, ErrorMessage := "boom",
            StartedAt := ⟨5⟩, ContentHash := "abc" }
        (Time.Add ⟨10 ^ 18⟩ (10 * Minute)) = false ∧
      SectionStatus.IsExpired
        { SectionStatus.zeroValue with
            CompletedAt := ⟨10 ^ 18⟩, Timeout := 30 * Minute, ErrorMessage := "boom",
            StartedAt := ⟨5⟩, ContentHash := "abc" }
        (Time.Add ⟨10 ^ 18⟩ (31 * Minute)) = true := by
  constructor
  · rw [← Bool.not_eq_true, (IsExpired_iff_missing_or_after _ _).1]
    simp [SectionStatus.zeroValue, Time.zero, Time.Add, Minute, Second]
  · rw [(IsExpired_iff_missing_or_after _ _).1]
    simp [SectionStatus.zeroValue, Time.zero, Time.Add, Minute, Second]

/-- C2, as stated, fails: with `Timeout` = 2^62 ns (a valid 64-bit duration) the
program's `Timeout * 2` wraps to -2^63 ns, so a status completed at instant 10^18 is
not current at that very instant, although that instant is before
`CompletedAt` plus the exact double of the `Timeout`. -/
theorem IsCurrent_exact_double_counterexample :
    minInt64 ≤ (2 ^ 62 : Int) ∧ (2 ^ 62 : Int) ≤ maxInt64 ∧
    ¬ (SectionStatus.IsCurrent
          { SectionStatus.zeroValue with CompletedAt := ⟨10 ^ 18⟩, Timeout := 2 ^ 62 }
          ⟨10 ^ 18⟩ = true ↔
        ((⟨10 ^ 18⟩ : Time) ≠ Time.zero ∧ (10 ^ 18 : Int) < 10 ^ 18 + 2 * 2 ^ 62)) := by
  refine ⟨by decide, by decide, ?_⟩
  intro h
  have hc := h.mpr ⟨by decide, by norm_num⟩
  revert hc
  decide

/-- C2, amended: when the double of the `Timeout` fits a 64-bit duration
(-2^62 ≤ Timeout < 2^62), `IsCurrent` holds exactly when `CompletedAt` is not the zero
time and `now` is strictly before `CompletedAt` plus twice the `Timeout`. -/
theorem IsCurrent_iff_of_double_inRange (s : SectionStatus) (now : Time)
    (hlo : -(2 ^ 62) ≤ s.Timeout) (hhi : s.Timeout < 2 ^ 62) :
    s.IsCurrent now = true ↔
      (s.CompletedAt ≠ Time.zero ∧ now.ns < s.CompletedAt.ns + 2 * s.Timeout) := by
  rw [s.IsCurrent_eq_true_iff now, wrapInt64_double _ hlo hhi]

/-- C2, amended, at a concrete input: `Timeout` = 30 minutes, completed at 10^18,
asked at 10^18 + 59 minutes: the status is current. -/
theorem IsCurrent_iff_of_double_inRange_witness :
    SectionStatus.IsCurrent
      { SectionStatus.zeroValue with CompletedAt := ⟨10 ^ 18⟩, Timeout := 30 * Minute }
      (Time.Add ⟨10 ^ 18⟩ (59 * Minute)) = true :=
  (IsCurrent_iff_of_double_inRange
      { SectionStatus.zeroValue with CompletedAt := ⟨10 ^ 18⟩, Timeout := 30 * Minute }
      (Time.Add ⟨10 ^ 18⟩ (59 * Minute)) (by decide) (by decide)).mpr
    ⟨by decide, by decide⟩

/-- C3: a status with a non-negative `Timeout` and an empty `ErrorMessage` whose
`CompletedAt` is the current, non-zero instant is, at that instant, not missing, not
expired and OK. -/
theorem fresh_success_not_missing_not_expired_ok (s : SectionStatus) (now : Time)
    (hT : 0 ≤ s.Timeout) (hnow : now ≠ Time.zero) (hC : s.CompletedAt = now)
    (hE : s.ErrorMessage = "") :
    s.IsMissing = false ∧ s.IsExpired now = false ∧ s.IsOK = true := by
  have hz : s.CompletedAt.IsZero = false := by
    rw [Time.IsZero_eq_false_iff, hC]; exact hnow
  refine ⟨hz, ?_, ?_⟩
  · unfold SectionStatus.IsExpired
    rw [hz, hC]
    simp only [Bool.false_eq_true, if_false, Time.After, Time.Add, decide_eq_false_iff_not]
    omega
  · simp [SectionStatus.IsOK, hE]

/-- C3 at a concrete input: `Timeout` = 30 minutes, stamped and asked at 10^18. -/
theorem fresh_success_not_missing_not_expired_ok_witness :
    (0 : Int) ≤ 30 * Minute ∧ (⟨10 ^ 18⟩ : Time) ≠ Time.zero ∧
    SectionStatus.IsMissing
      { SectionStatus.zeroValue with CompletedAt := ⟨10 ^ 18⟩, Timeout := 30 * Minute } = false ∧
    SectionStatus.IsExpired
      { SectionStatus.zeroValue with CompletedAt := ⟨10 ^ 18⟩, Timeout := 30 * Minute }
      ⟨10 ^ 18⟩ = false ∧
    SectionStatus.IsOK
      { SectionStatus.zeroValue with CompletedAt := ⟨10 ^ 18⟩, Timeout := 30 * Minute } = true :=
  ⟨by decide, by decide,
    fresh_success_not_missing_not_expired_ok
      { SectionStatus.zeroValue with CompletedAt := ⟨10 ^ 18⟩, Timeout := 30 * Minute }
      ⟨10 ^ 18⟩ (by decide) (by decide) rfl rfl⟩

/-- C4: the zero value of `SectionStatus`, with any `Timeout` put in, is at every
instant missing, expired, not current, not running and OK. -/
theorem zeroValue_is_missing (timeout : Int) (now : Time) :
    SectionStatus.IsMissing { SectionStatus.zeroValue with Timeout := timeout } = true ∧
    SectionStatus.IsExpired { SectionStatus.zeroValue with Timeout := timeout } now = true ∧
    SectionStatus.IsCurrent { SectionStatus.zeroValue with Timeout := timeout } now = false ∧
    SectionStatus.IsRunning { SectionStatus.zeroValue with Timeout := timeout } = false ∧
    SectionStatus.IsOK { SectionStatus.zeroValue with Timeout := timeout } = true :=
  ⟨rfl, rfl, rfl, rfl, rfl⟩

/-- C5, as stated, fails for two kinds of status with a positive `Timeout` whose
double does not overflow: a status that never completed (`CompletedAt` zero) is
current at no instant, and with `Timeout` = 1 ns no instant lies strictly between
`CompletedAt + Timeout` and `CompletedAt + 2×Timeout`. -/
theorem expired_but_current_counterexample :
    ((0 : Int) < 30 * Minute ∧ 2 * (30 * Minute) ≤ maxInt64 ∧
      ¬ ∃ now : Time,
        SectionStatus.IsExpired
            { SectionStatus.zeroValue with Timeout := 30 * Minute } now = true ∧
          SectionStatus.IsCurrent
            { SectionStatus.zeroValue with Timeout := 30 * Minute } now = true) ∧
    ((0 : Int) < Nanosecond ∧ 2 * Nanosecond ≤ maxInt64 ∧
      ¬ ∃ now : Time,
        SectionStatus.IsExpired
            { SectionStatus.zeroValue with CompletedAt := ⟨10 ^ 18⟩, Timeout := Nanosecond }
            now = true ∧
          SectionStatus.IsCurrent
            { SectionStatus.zeroValue with CompletedAt := ⟨10 ^ 18⟩, Timeout := Nanosecond }
            now = true) := by
  refine ⟨⟨by decide, by decide, ?_⟩, ⟨by decide, by decide, ?_⟩⟩
  · rintro ⟨now, -, hc⟩
    exact Bool.false_ne_true hc
  · rintro ⟨now, he, hc⟩
    have h1 := (SectionStatus.IsExpired_eq_true_iff _ now).mp he
    have h2 := (SectionStatus.IsCurrent_eq_true_iff _ now).mp hc
    rw [wrapInt64_double _ (by decide) (by decide)] at h2
    simp only [SectionStatus.zeroValue, Nanosecond] at h1 h2
    rcases h1 with h1 | h1
    · exact absurd h1 (by decide)
    · omega

/-- C5, amended: for a positive `Timeout` whose double does not overflow, a status
that is not expired at `now` is current at `now`; and when moreover `CompletedAt` is
not the zero time and the `Timeout` is at least 2 ns, the status is expired but still
current at every instant strictly between `CompletedAt + Timeout` and
`CompletedAt + 2×Timeout`, one of which is `CompletedAt + Timeout + ⌊Timeout/2⌋`. -/
theorem current_window_wider (s : SectionStatus) (now : Time)
    (hpos : 0 < s.Timeout) (hdbl : 2 * s.Timeout ≤ maxInt64) :
    (s.IsExpired now = false → s.IsCurrent now = true) ∧
    (s.CompletedAt ≠ Time.zero → 2 ≤ s.Timeout →
      (∀ t : Time, s.CompletedAt.ns + s.Timeout < t.ns →
          t.ns < s.CompletedAt.ns + 2 * s.Timeout →
          s.IsExpired t = true ∧ s.IsCurrent t = true) ∧
      s.IsExpired (s.CompletedAt.Add (s.Timeout + s.Timeout / 2)) = true ∧
      s.IsCurrent (s.CompletedAt.Add (s.Timeout + s.Timeout / 2)) = true) := by
  have hmax : maxInt64 = 2 ^ 63 - 1 := rfl
  have hw := wrapInt64_double s.Timeout (by omega) (by omega)
  have hcur : ∀ t : Time, s.IsCurrent t = true ↔
      (s.CompletedAt ≠ Time.zero ∧ t.ns < s.CompletedAt.ns + 2 * s.Timeout) := by
    intro t
    rw [s.IsCurrent_eq_true_iff t, hw]
  have hexp := fun t => s.IsExpired_eq_true_iff t
  have hwin : s.CompletedAt ≠ Time.zero → ∀ t : Time, s.CompletedAt.ns + s.Timeout < t.ns →
      t.ns < s.CompletedAt.ns + 2 * s.Timeout →
      s.IsExpired t = true ∧ s.IsCurrent t = true :=
    fun hne t h1 h2 => ⟨(hexp t).mpr (Or.inr h1), (hcur t).mpr ⟨hne, h2⟩⟩
  constructor
  · intro hne
    rw [← Bool.not_eq_true, hexp now, not_or] at hne
    exact (hcur now).mpr ⟨hne.1, by omega⟩
  · intro hne h2
    refine ⟨hwin hne, hwin hne _ ?_ ?_⟩
    · simp only [Time.Add]; omega
    · simp only [Time.Add]; omega

/-- C5, amended, at a concrete input: `Timeout` = 30 minutes, completed at 10^18:
at 10^18 + 45 minutes the status is expired and current. -/
theorem current_window_wider_witness :
    SectionStatus.IsExpired
        { SectionStatus.zeroValue with CompletedAt := ⟨10 ^ 18⟩, Timeout := 30 * Minute }
        (Time.Add ⟨10 ^ 18⟩ (45 * Minute)) = true ∧
      SectionStatus.IsCurrent
        { SectionStatus.zeroValue with CompletedAt := ⟨10 ^ 18⟩, Timeout := 30 * Minute }
        (Time.Add ⟨10 ^ 18⟩ (45 * Minute)) = true :=
  ((current_window_wider
      { SectionStatus.zeroValue with CompletedAt := ⟨10 ^ 18⟩, Timeout := 30 * Minute }
      ⟨10 ^ 18⟩ (by decide) (by decide)).2 (by decide) (by decide)).2

/-! ## Section updates -/

theorem StatusRegistry.lookup_key (r : StatusRegistry) (owner : Int) (sectionID : String) :
    (r.lookup owner sectionID).EntityID = owner ∧
      (r.lookup owner sectionID).SectionID = sectionID := by
  unfold StatusRegistry.lookup StatusRegistry.Get
  cases h : r.records owner sectionID with
  | none => exact ⟨rfl, rfl⟩
  | some status => exact r.keyed owner sectionID status h

theorem StatusRegistry.lookup_Set (r : StatusRegistry) (status : SectionStatus) :
    (r.Set status).lookup status.EntityID status.SectionID = status := by
  simp [StatusRegistry.lookup, StatusRegistry.Get, StatusRegistry.Set]

theorem StatusRegistry.lookup_Set_of_key (r : StatusRegistry) (status : SectionStatus)
    (owner : Int) (sectionID : String) (ho : status.EntityID = owner)
    (hs : status.SectionID = sectionID) :
    (r.Set status).lookup owner sectionID = status := by
  subst ho hs
  exact r.lookup_Set status

/-- The condition of step 1 of §4.4 under which a call goes on to fetch. -/
theorem run_cond {δ : Type} (clock : Clock) (arg : CharacterUpdateSectionParams)
    (sv : Service δ)
    (hrun : arg.ForceUpdate = true ∨
      (sv.registry.lookup arg.CharacterID arg.Section).IsExpired clock.atLookup = true) :
    (!arg.ForceUpdate &&
      !(sv.registry.lookup arg.CharacterID arg.Section).IsExpired clock.atLookup) = false := by
  rcases hrun with h | h <;> simp [h]

/-- The stored hash the body compares with is the one of the status before the call:
stamping `StartedAt` leaves `ContentHash` as it is. -/
theorem lookup_started (r : StatusRegistry) (owner : Int) (sectionID : String) (t : Time) :
    (r.Set ((r.lookup owner sectionID).started t)).lookup owner sectionID =
      (r.lookup owner sectionID).started t :=
  StatusRegistry.lookup_Set_of_key _ _ _ _ (r.lookup_key owner sectionID).1
    (r.lookup_key owner sectionID).2

theorem lookup_failed (r r' : StatusRegistry) (owner : Int) (sectionID : String)
    (t t' : Time) (e : String) :
    (r'.Set (((r.lookup owner sectionID).started t).failed t' e)).lookup owner sectionID =
      ((r.lookup owner sectionID).started t).failed t' e :=
  StatusRegistry.lookup_Set_of_key _ _ _ _ (r.lookup_key owner sectionID).1
    (r.lookup_key owner sectionID).2

theorem lookup_succeeded (r r' : StatusRegistry) (owner : Int) (sectionID : String)
    (t t' : Time) (changed : Bool) (hash : String) :
    (r'.Set (((r.lookup owner sectionID).started t).succeeded t' changed hash)).lookup
        owner sectionID =
      ((r.lookup owner sectionID).started t).succeeded t' changed hash :=
  StatusRegistry.lookup_Set_of_key _ _ _ _ (r.lookup_key owner sectionID).1
    (r.lookup_key owner sectionID).2

/-- Step 1 of §4.4: an unforced call on a status that is not expired is the cheap path. -/
theorem UpdateSectionIfNeeded_noop {δ : Type} (c : Collaborators δ) (clock : Clock)
    (arg : CharacterUpdateSectionParams) (sv : Service δ)
    (hforce : arg.ForceUpdate = false)
    (hfresh : (sv.registry.lookup arg.CharacterID arg.Section).IsExpired clock.atLookup = false) :
    UpdateSectionIfNeeded c clock arg sv = (.ok false, sv) := by
  simp [UpdateSectionIfNeeded, hforce, hfresh]

/-- A run whose fetch fails: step 5 of §4.4. -/
theorem UpdateSectionIfNeeded_fetch_error {δ : Type} (c : Collaborators δ) (clock : Clock)
    (arg : CharacterUpdateSectionParams) (sv : Service δ) (e : String)
    (hrun : arg.ForceUpdate = true ∨
      (sv.registry.lookup arg.CharacterID arg.Section).IsExpired clock.atLookup = true)
    (hfetch : c.fetch = .error e) :
    UpdateSectionIfNeeded c clock arg sv =
      (.error e,
        { registry :=
            (sv.registry.Set
              ((sv.registry.lookup arg.CharacterID arg.Section).started clock.atStart)).Set
              (((sv.registry.lookup arg.CharacterID arg.Section).started
                clock.atStart).failed clock.atEnd e)
          invocations :=
            sv.invocations ++ [Invocation.fetch arg.CharacterID arg.Section] }) := by
  unfold UpdateSectionIfNeeded updateSectionIfChanged
  simp only [run_cond clock arg sv hrun, hfetch, Bool.false_eq_true, if_false]

/-- A run whose fetch returns data with the stored fingerprint: no write, step 4. -/
theorem UpdateSectionIfNeeded_unchanged {δ : Type} (c : Collaborators δ) (clock : Clock)
    (arg : CharacterUpdateSectionParams) (sv : Service δ) (data : δ)
    (hrun : arg.ForceUpdate = true ∨
      (sv.registry.lookup arg.CharacterID arg.Section).IsExpired clock.atLookup = true)
    (hfetch : c.fetch = .ok data)
    (hsame : c.fingerprint data =
      (sv.registry.lookup arg.CharacterID arg.Section).ContentHash) :
    UpdateSectionIfNeeded c clock arg sv =
      (.ok false,
        { registry :=
            (sv.registry.Set
              ((sv.registry.lookup arg.CharacterID arg.Section).started clock.atStart)).Set
              (((sv.registry.lookup arg.CharacterID arg.Section).started
                clock.atStart).succeeded clock.atEnd false (c.fingerprint data))
          invocations :=
            sv.invocations ++ [Invocation.fetch arg.CharacterID arg.Section] }) := by
  have hs : c.fingerprint data =
      ((sv.registry.lookup arg.CharacterID arg.Section).started clock.atStart).ContentHash :=
    hsame
  unfold UpdateSectionIfNeeded updateSectionIfChanged
  simp only [run_cond clock arg sv hrun, hfetch, Bool.false_eq_true, if_false,
    lookup_started, hs, if_true]

/-- A run whose fetch returns data with another fingerprint than the stored one: the
data is written; the outcome is the one of the write (step 4 or step 5). -/
theorem UpdateSectionIfNeeded_changed {δ : Type} (c : Collaborators δ) (clock : Clock)
    (arg : CharacterUpdateSectionParams) (sv : Service δ) (data : δ)
    (hrun : arg.ForceUpdate = true ∨
      (sv.registry.lookup arg.CharacterID arg.Section).IsExpired clock.atLookup = true)
    (hfetch : c.fetch = .ok data)
    (hdiff : c.fingerprint data ≠
      (sv.registry.lookup arg.CharacterID arg.Section).ContentHash) :
    UpdateSectionIfNeeded c clock arg sv =
      match c.write data with
      | none =>
        (.ok true,
          { registry :=
              (sv.registry.Set
                ((sv.registry.lookup arg.CharacterID arg.Section).started clock.atStart)).Set
                (((sv.registry.lookup arg.CharacterID arg.Section).started
                  clock.atStart).succeeded clock.atEnd true (c.fingerprint data))
            invocations :=
              sv.invocations ++ [Invocation.fetch arg.CharacterID arg.Section] ++
                [Invocation.write arg.CharacterID arg.Section data] })
      | some e =>
        (.error e,
          { registry :=
              (sv.registry.Set
                ((sv.registry.lookup arg.CharacterID arg.Section).started clock.atStart)).Set
                (((sv.registry.lookup arg.CharacterID arg.Section).started
                  clock.atStart).failed clock.atEnd e)
            invocations :=
              sv.invocations ++ [Invocation.fetch arg.CharacterID arg.Section] ++
                [Invocation.write arg.CharacterID arg.Section data] }) := by
  have hd : ¬ c.fingerprint data =
      ((sv.registry.lookup arg.CharacterID arg.Section).started clock.atStart).ContentHash :=
    hdiff
  unfold UpdateSectionIfNeeded updateSectionIfChanged
  simp only [run_cond clock arg sv hrun, hfetch, Bool.false_eq_true, if_false,
    lookup_started, hd]
  cases c.write data <;> rfl

theorem fetchCount_append_fetch {δ : Type} (l : List (Invocation δ)) (r r' : StatusRegistry)
    (owner : Int) (sectionID : String) :
    Service.fetchCount { registry := r', invocations := l ++ [Invocation.fetch owner sectionID] } =
      Service.fetchCount { registry := r, invocations := l } + 1 := by
  simp [Service.fetchCount, List.countP_append, Invocation.isFetch]

theorem fetchCount_append_fetch_write {δ : Type} (l : List (Invocation δ))
    (r r' : StatusRegistry) (owner : Int) (sectionID : String) (data : δ) :
    Service.fetchCount
        { registry := r',
          invocations := l ++ [Invocation.fetch owner sectionID] ++
            [Invocation.write owner sectionID data] } =
      Service.fetchCount { registry := r, invocations := l } + 1 := by
  simp [Service.fetchCount, List.countP_append, Invocation.isFetch]

theorem written_append_fetch {δ : Type} (l : List (Invocation δ)) (r r' : StatusRegistry)
    (owner : Int) (sectionID : String) :
    Service.written { registry := r', invocations := l ++ [Invocation.fetch owner sectionID] } =
      Service.written { registry := r, invocations := l } := by
  simp [Service.written, List.filterMap_append]

theorem written_append_fetch_write {δ : Type} (l : List (Invocation δ))
    (r r' : StatusRegistry) (owner : Int) (sectionID : String) (data : δ) :
    Service.written
        { registry := r',
          invocations := l ++ [Invocation.fetch owner sectionID] ++
            [Invocation.write owner sectionID data] } =
      Service.written { registry := r, invocations := l } ++ [data] := by
  simp [Service.written, List.filterMap_append]

/-- A call that is forced, or made on an expired status, invokes the fetch once, and
then stores a status whose `CompletedAt` is the completion instant, whose `StartedAt`
is cleared and whose `Timeout` and `ContentHash` history are as §4.4 says. -/
theorem UpdateSectionIfNeeded_run {δ : Type} (c : Collaborators δ) (clock : Clock)
    (arg : CharacterUpdateSectionParams) (sv : Service δ)
    (hrun : arg.ForceUpdate = true ∨
      (sv.registry.lookup arg.CharacterID arg.Section).IsExpired clock.atLookup = true) :
    (UpdateSectionIfNeeded c clock arg sv).2.fetchCount = sv.fetchCount + 1 ∧
    ((UpdateSectionIfNeeded c clock arg sv).2.registry.lookup
        arg.CharacterID arg.Section).CompletedAt = clock.atEnd ∧
    ((UpdateSectionIfNeeded c clock arg sv).2.registry.lookup
        arg.CharacterID arg.Section).StartedAt = Time.zero ∧
    ((UpdateSectionIfNeeded c clock arg sv).2.registry.lookup
        arg.CharacterID arg.Section).Timeout =
      (sv.registry.lookup arg.CharacterID arg.Section).Timeout := by
  cases hf : c.fetch with
  | error e =>
    rw [UpdateSectionIfNeeded_fetch_error c clock arg sv e hrun hf]
    refine ⟨fetchCount_append_fetch _ _ _ _ _, ?_⟩
    simp only [lookup_failed]
    exact ⟨rfl, rfl, rfl⟩
  | ok data =>
    by_cases hh : c.fingerprint data =
        (sv.registry.lookup arg.CharacterID arg.Section).ContentHash
    · rw [UpdateSectionIfNeeded_unchanged c clock arg sv data hrun hf hh]
      refine ⟨fetchCount_append_fetch _ _ _ _ _, ?_⟩
      simp only [lookup_succeeded]
      exact ⟨rfl, rfl, rfl⟩
    · rw [UpdateSectionIfNeeded_changed c clock arg sv data hrun hf hh]
      cases c.write data with
      | none =>
        refine ⟨fetchCount_append_fetch_write _ _ _ _ _ _, ?_⟩
        simp only [lookup_succeeded]
        exact ⟨rfl, rfl, rfl⟩
      | some e =>
        refine ⟨fetchCount_append_fetch_write _ _ _ _ _ _, ?_⟩
        simp only [lookup_failed]
        exact ⟨rfl, rfl, rfl⟩

/-- C6: an unforced `UpdateSectionIfNeeded` on a status that is not expired returns
`(false, nil)` and leaves the whole state as it was: no fetch is invoked and the
status is unchanged. Hence, when a call that fetches completes at a non-zero instant
and a second, unforced call for the same section is made no later than a `Timeout`
after that instant, the second call returns `(false, nil)`, changes nothing, and the
two calls together invoked the fetch exactly once. -/
theorem UpdateSectionIfNeeded_not_expired_noop {δ : Type} (c : Collaborators δ)
    (clock : Clock) (arg : CharacterUpdateSectionParams) (sv : Service δ) :
    (arg.ForceUpdate = false →
      (sv.registry.lookup arg.CharacterID arg.Section).IsExpired clock.atLookup = false →
      UpdateSectionIfNeeded c clock arg sv = (.ok false, sv)) ∧
    (∀ (c2 : Collaborators δ) (clock2 : Clock),
      (arg.ForceUpdate = true ∨
        (sv.registry.lookup arg.CharacterID arg.Section).IsExpired clock.atLookup = true) →
      clock.atEnd ≠ Time.zero →
      clock2.atLookup.ns ≤
        clock.atEnd.ns + (sv.registry.lookup arg.CharacterID arg.Section).Timeout →
      UpdateSectionIfNeeded c2 clock2 { arg with ForceUpdate := false }
          (UpdateSectionIfNeeded c clock arg sv).2 =
        (.ok false, (UpdateSectionIfNeeded c clock arg sv).2) ∧
      (UpdateSectionIfNeeded c2 clock2 { arg with ForceUpdate := false }
          (UpdateSectionIfNeeded c clock arg sv).2).2.fetchCount = sv.fetchCount + 1) := by
  refine ⟨UpdateSectionIfNeeded_noop c clock arg sv, ?_⟩
  intro c2 clock2 hrun hnz hle
  obtain ⟨hcount, hdone, -, htimeout⟩ := UpdateSectionIfNeeded_run c clock arg sv hrun
  have hfresh : ((UpdateSectionIfNeeded c clock arg sv).2.registry.lookup
      arg.CharacterID arg.Section).IsExpired clock2.atLookup = false := by
    rw [← Bool.not_eq_true, SectionStatus.IsExpired_eq_true_iff, hdone, htimeout]
    rintro (h | h)
    · exact hnz h
    · omega
  have hnoop := UpdateSectionIfNeeded_noop c2 clock2 { arg with ForceUpdate := false }
    (UpdateSectionIfNeeded c clock arg sv).2 rfl hfresh
  rw [hnoop]
  exact ⟨rfl, hcount⟩

theorem walletRegistry_lookup :
    walletRegistry.lookup 42 "wallet" =
      { SectionStatus.zeroValue with
        EntityID := 42, SectionID := "wallet", SectionName := "Wallet",
        Timeout := 30 * Minute } :=
  StatusRegistry.lookup_Set _ _

/-- C6, the scenario of the claim: `Timeout` 30 minutes, first call at `t0` = 10^18 on
the missing status (it fetches), second call at `t0` + 10 minutes: the second call
returns `(false, nil)` and the fetch was invoked once in all. -/
theorem UpdateSectionIfNeeded_not_expired_noop_witness :
    UpdateSectionIfNeeded fetchD1 (Clock.fixed (Time.Add ⟨10 ^ 18⟩ (10 * Minute)))
        { CharacterID := 42, Section := "wallet", ForceUpdate := false }
        (UpdateSectionIfNeeded fetchD1 (Clock.fixed ⟨10 ^ 18⟩)
          { CharacterID := 42, Section := "wallet", ForceUpdate := false }
          { registry := walletRegistry, invocations := [] }).2 =
      (.ok false,
        (UpdateSectionIfNeeded fetchD1 (Clock.fixed ⟨10 ^ 18⟩)
          { CharacterID := 42, Section := "wallet", ForceUpdate := false }
          { registry := walletRegistry, invocations := [] }).2) ∧
    (UpdateSectionIfNeeded fetchD1 (Clock.fixed (Time.Add ⟨10 ^ 18⟩ (10 * Minute)))
        { CharacterID := 42, Section := "wallet", ForceUpdate := false }
        (UpdateSectionIfNeeded fetchD1 (Clock.fixed ⟨10 ^ 18⟩)
          { CharacterID := 42, Section := "wallet", ForceUpdate := false }
          { registry := walletRegistry, invocations := [] }).2).2.fetchCount = 0 + 1 :=
  (UpdateSectionIfNeeded_not_expired_noop fetchD1 (Clock.fixed ⟨10 ^ 18⟩)
      { CharacterID := 42, Section := "wallet", ForceUpdate := false }
      { registry := walletRegistry, invocations := [] }).2
    fetchD1 (Clock.fixed (Time.Add ⟨10 ^ 18⟩ (10 * Minute)))
    (Or.inr (by rw [walletRegistry_lookup]; rfl))
    (by decide)
    (by rw [walletRegistry_lookup]; decide)

/-- C7, as stated, fails when the storage write fails: the fetched data "D1" has a
fingerprint that differs from the stored (empty) `ContentHash`, the write is invoked
once with "D1", but the update returns the error of the write and not `changed=true`. -/
theorem change_gating_counterexample :
    fetchD1WriteFails.fetch = .ok "D1" ∧
    fetchD1WriteFails.fingerprint "D1" ≠ (walletRegistry.lookup 42 "wallet").ContentHash ∧
    (UpdateSectionIfNeeded fetchD1WriteFails (Clock.fixed ⟨10 ^ 18⟩)
        { CharacterID := 42, Section := "wallet", ForceUpdate := false }
        { registry := walletRegistry, invocations := [] }).2.written = ["D1"] ∧
    (UpdateSectionIfNeeded fetchD1WriteFails (Clock.fixed ⟨10 ^ 18⟩)
        { CharacterID := 42, Section := "wallet", ForceUpdate := false }
        { registry := walletRegistry, invocations := [] }).1 = .error "disk full" ∧
    (UpdateSectionIfNeeded fetchD1WriteFails (Clock.fixed ⟨10 ^ 18⟩)
        { CharacterID := 42, Section := "wallet", ForceUpdate := false }
        { registry := walletRegistry, invocations := [] }).1 ≠ .ok true := by
  have hrun : ({ CharacterID := 42, Section := "wallet", ForceUpdate := false } :
        CharacterUpdateSectionParams).ForceUpdate = true ∨
      (walletRegistry.lookup 42 "wallet").IsExpired (Clock.fixed ⟨10 ^ 18⟩).atLookup = true :=
    Or.inr (by rw [walletRegistry_lookup]; rfl)
  have hdiff : fetchD1WriteFails.fingerprint "D1" ≠
      (walletRegistry.lookup 42 "wallet").ContentHash := by
    rw [walletRegistry_lookup]; decide
  refine ⟨rfl, hdiff, ?_, ?_, ?_⟩
  all_goals
    rw [UpdateSectionIfNeeded_changed fetchD1WriteFails (Clock.fixed ⟨10 ^ 18⟩)
      { CharacterID := 42, Section := "wallet", ForceUpdate := false }
      { registry := walletRegistry, invocations := [] } "D1" hrun rfl hdiff]
  · rfl
  · rfl
  · intro h
    cases h

/-- C7, amended: in a section update, when the fingerprint of the freshly fetched
data equals the stored `ContentHash` the storage write is not invoked and the update
reports `changed=false`; when it differs, which includes the case that no hash is
stored yet, as on a first fetch, the storage write is invoked exactly once, with the
fetched data, and the update reports `changed=true` if that write succeeds and
returns the error of the write if it fails. -/
theorem change_gating {δ : Type} (c : Collaborators δ) (clock : Clock)
    (arg : CharacterUpdateSectionParams) (sv : Service δ) (data : δ)
    (hrun : arg.ForceUpdate = true ∨
      (sv.registry.lookup arg.CharacterID arg.Section).IsExpired clock.atLookup = true)
    (hfetch : c.fetch = .ok data) :
    (c.fingerprint data = (sv.registry.lookup arg.CharacterID arg.Section).ContentHash →
      (UpdateSectionIfNeeded c clock arg sv).2.written = sv.written ∧
      (UpdateSectionIfNeeded c clock arg sv).1 = .ok false) ∧
    (c.fingerprint data ≠ (sv.registry.lookup arg.CharacterID arg.Section).ContentHash →
      (UpdateSectionIfNeeded c clock arg sv).2.written = sv.written ++ [data] ∧
      (c.write data = none → (UpdateSectionIfNeeded c clock arg sv).1 = .ok true) ∧
      (∀ e, c.write data = some e →
        (UpdateSectionIfNeeded c clock arg sv).1 = .error e)) ∧
    ((sv.registry.lookup arg.CharacterID arg.Section).ContentHash = "" →
      (UpdateSectionIfNeeded c clock arg sv).2.written = sv.written ++ [data] ∧
      (c.write data = none → (UpdateSectionIfNeeded c clock arg sv).1 = .ok true) ∧
      (∀ e, c.write data = some e →
        (UpdateSectionIfNeeded c clock arg sv).1 = .error e)) := by
  have hchanged :
      c.fingerprint data ≠ (sv.registry.lookup arg.CharacterID arg.Section).ContentHash →
      (UpdateSectionIfNeeded c clock arg sv).2.written = sv.written ++ [data] ∧
      (c.write data = none → (UpdateSectionIfNeeded c clock arg sv).1 = .ok true) ∧
      (∀ e, c.write data = some e →
        (UpdateSectionIfNeeded c clock arg sv).1 = .error e) := by
    intro hdiff
    rw [UpdateSectionIfNeeded_changed c clock arg sv data hrun hfetch hdiff]
    cases hw : c.write data with
    | none =>
      refine ⟨written_append_fetch_write _ _ _ _ _ _, fun _ => rfl, ?_⟩
      intro e he
      cases he
    | some e =>
      refine ⟨written_append_fetch_write _ _ _ _ _ _, ?_, ?_⟩
      · intro he
        cases he
      · intro e' he
        cases he
        rfl
  refine ⟨?_, hchanged, ?_⟩
  · intro hsame
    rw [UpdateSectionIfNeeded_unchanged c clock arg sv data hrun hfetch hsame]
    exact ⟨written_append_fetch _ _ _ _ _, rfl⟩
  · intro hnone
    apply hchanged
    rw [hnone]
    exact c.fingerprint_ne_empty data

/-- C7, amended, on the first fetch of the scenario of spec §8: no hash is stored,
the fetch returns "D1", the write succeeds: "D1" is written once and the update
reports `changed=true`. -/
theorem change_gating_witness :
    (UpdateSectionIfNeeded fetchD1 (Clock.fixed ⟨10 ^ 18⟩)
        { CharacterID := 42, Section := "wallet", ForceUpdate := false }
        { registry := walletRegistry, invocations := [] }).2.written = [] ++ ["D1"] ∧
    (UpdateSectionIfNeeded fetchD1 (Clock.fixed ⟨10 ^ 18⟩)
        { CharacterID := 42, Section := "wallet", ForceUpdate := false }
        { registry := walletRegistry, invocations := [] }).1 = .ok true :=
  have h := (change_gating fetchD1 (Clock.fixed ⟨10 ^ 18⟩)
      { CharacterID := 42, Section := "wallet", ForceUpdate := false }
      { registry := walletRegistry, invocations := [] } "D1"
      (Or.inr (by rw [walletRegistry_lookup]; rfl)) rfl).2.2
    (by rw [walletRegistry_lookup]; rfl)
  ⟨h.1, h.2.1 rfl⟩

/-- C8: when the fetch or the storage write of a section update fails with error
`e`, `UpdateSectionIfNeeded` returns `e`, and the status stored afterwards is the
status of before the call with `CompletedAt` = the completion instant,
`ErrorMessage` = `e`, `StartedAt` cleared and every other field, `ContentHash` and
`Timeout` among them, as before the call; consequently, for a positive (or zero)
`Timeout`, the completion instant being a reading of the clock and so not the zero
time, the stored status is not expired at the completion instant nor at any later
instant up to `Timeout` after it. -/
theorem failure_path {δ : Type} (c : Collaborators δ) (clock : Clock)
    (arg : CharacterUpdateSectionParams) (sv : Service δ) (e : String)
    (hrun : arg.ForceUpdate = true ∨
      (sv.registry.lookup arg.CharacterID arg.Section).IsExpired clock.atLookup = true)
    (hfail : c.fetch = .error e ∨
      ∃ data, c.fetch = .ok data ∧
        c.fingerprint data ≠ (sv.registry.lookup arg.CharacterID arg.Section).ContentHash ∧
        c.write data = some e) :
    (UpdateSectionIfNeeded c clock arg sv).1 = .error e ∧
    (UpdateSectionIfNeeded c clock arg sv).2.registry.lookup arg.CharacterID arg.Section =
      { sv.registry.lookup arg.CharacterID arg.Section with
        CompletedAt := clock.atEnd
        ErrorMessage := e
        StartedAt := Time.zero } ∧
    ((UpdateSectionIfNeeded c clock arg sv).2.registry.lookup
        arg.CharacterID arg.Section).CompletedAt = clock.atEnd ∧
    ((UpdateSectionIfNeeded c clock arg sv).2.registry.lookup
        arg.CharacterID arg.Section).ErrorMessage = e ∧
    ((UpdateSectionIfNeeded c clock arg sv).2.registry.lookup
        arg.CharacterID arg.Section).StartedAt = Time.zero ∧
    ((UpdateSectionIfNeeded c clock arg sv).2.registry.lookup
        arg.CharacterID arg.Section).ContentHash =
      (sv.registry.lookup arg.CharacterID arg.Section).ContentHash ∧
    ((UpdateSectionIfNeeded c clock arg sv).2.registry.lookup
        arg.CharacterID arg.Section).Timeout =
      (sv.registry.lookup arg.CharacterID arg.Section).Timeout ∧
    (0 ≤ (sv.registry.lookup arg.CharacterID arg.Section).Timeout →
      clock.atEnd ≠ Time.zero →
      ∀ t : Time, clock.atEnd.ns ≤ t.ns →
        t.ns ≤ clock.atEnd.ns + (sv.registry.lookup arg.CharacterID arg.Section).Timeout →
        ((UpdateSectionIfNeeded c clock arg sv).2.registry.lookup
          arg.CharacterID arg.Section).IsExpired t = false) := by
  have hexp : ∀ st : SectionStatus, st.CompletedAt = clock.atEnd →
      st.Timeout = (sv.registry.lookup arg.CharacterID arg.Section).Timeout →
      0 ≤ (sv.registry.lookup arg.CharacterID arg.Section).Timeout →
      clock.atEnd ≠ Time.zero →
      ∀ t : Time, clock.atEnd.ns ≤ t.ns →
        t.ns ≤ clock.atEnd.ns + (sv.registry.lookup arg.CharacterID arg.Section).Timeout →
        st.IsExpired t = false := by
    intro st hc ht _ hnz t _ hle
    rw [← Bool.not_eq_true, SectionStatus.IsExpired_eq_true_iff, hc, ht]
    rintro (h | h)
    · exact hnz h
    · omega
  rcases hfail with hf | ⟨data, hf, hdiff, hw⟩
  · rw [UpdateSectionIfNeeded_fetch_error c clock arg sv e hrun hf]
    refine ⟨rfl, ?_⟩
    rw [lookup_failed]
    exact ⟨rfl, rfl, rfl, rfl, rfl, rfl, hexp _ rfl rfl⟩
  · rw [UpdateSectionIfNeeded_changed c clock arg sv data hrun hf hdiff, hw]
    refine ⟨rfl, ?_⟩
    rw [lookup_failed]
    exact ⟨rfl, rfl, rfl, rfl, rfl, rfl, hexp _ rfl rfl⟩

/-- C8 in the scenario of spec §8 with a failing fetch at 10^18 ns: the call returns
the error, the stored status is the former one with the three stamps, and it is not
expired one minute after the failure (`Timeout` is 30 minutes). -/
theorem failure_path_witness :
    (UpdateSectionIfNeeded fetchFails (Clock.fixed ⟨10 ^ 18⟩)
        { CharacterID := 42, Section := "wallet", ForceUpdate := false }
        { registry := walletRegistry, invocations := [] }).1 = .error "timeout" ∧
    (UpdateSectionIfNeeded fetchFails (Clock.fixed ⟨10 ^ 18⟩)
        { CharacterID := 42, Section := "wallet", ForceUpdate := false }
        { registry := walletRegistry, invocations := [] }).2.registry.lookup 42 "wallet" =
      { walletRegistry.lookup 42 "wallet" with
        CompletedAt := ⟨10 ^ 18⟩
        ErrorMessage := "timeout"
        StartedAt := Time.zero } ∧
    ((UpdateSectionIfNeeded fetchFails (Clock.fixed ⟨10 ^ 18⟩)
        { CharacterID := 42, Section := "wallet", ForceUpdate := false }
        { registry := walletRegistry, invocations := [] }).2.registry.lookup
          42 "wallet").IsExpired ⟨10 ^ 18 + Minute⟩ = false :=
  have h := failure_path fetchFails (Clock.fixed ⟨10 ^ 18⟩)
      { CharacterID := 42, Section := "wallet", ForceUpdate := false }
      { registry := walletRegistry, invocations := [] } "timeout"
      (Or.inr (by rw [walletRegistry_lookup]; rfl)) (Or.inl rfl)
  ⟨h.1, h.2.1,
    h.2.2.2.2.2.2.2 (by rw [walletRegistry_lookup]; decide) (by decide) ⟨10 ^ 18 + Minute⟩
      (by decide) (by rw [walletRegistry_lookup]; decide)⟩

/-! ## Notification rendering -/

theorem caseMatches_eq_false (value : NotificationType → String) (t : String)
    (constants : List NotificationType) (h : ∀ c : NotificationType, value c ≠ t) :
    caseMatches value t constants = false := by
  unfold caseMatches
  rw [List.any_eq_false]
  intro c _
  simpa using fun heq : t = value c => h c heq.symm

/-- C9: for a notification type that is the value of none of the constants listed in
the `switch` of `RenderESI`, and for every text and timestamp, `RenderESI` returns an
empty title, an empty body and a `nil` error, and calls neither a renderer nor the
`EveUniverseService`. -/
theorem RenderESI_unsupported (value : NotificationType → String) (rs : Renderers)
    (type_ text : String) (timestamp : Time)
    (h : ∀ c : NotificationType, value c ≠ type_) :
    RenderESI value rs type_ text timestamp =
      ({ title := none, body := none, err := none }, []) := by
  unfold RenderESI
  simp only [caseMatches_eq_false value type_ _ h, Bool.false_eq_true, if_false]

/-- C9 at a concrete input: the type "KillReportVictim" is none of the listed
constants, and renders to nothing. -/
theorem RenderESI_unsupported_witness :
    RenderESI identifierValue sampleRenderers "KillReportVictim" "text" ⟨10 ^ 18⟩ =
      ({ title := none, body := none, err := none }, []) :=
  RenderESI_unsupported identifierValue sampleRenderers "KillReportVictim" "text" ⟨10 ^ 18⟩
    (by intro c; cases c <;> decide)

/-! ## Routes -/

theorem slicesIndex_ne_of_mem (l : List String) (x : String) (h : x ∈ l) :
    slicesIndex l x ≠ -1 := by
  unfold slicesIndex
  rw [if_pos (List.indexOf_lt_length.mpr h)]
  omega

/-- C10: for a valid route preference and two systems with different IDs, when either
system is in wormhole space `GetRouteESI` returns an empty, non-nil slice and a `nil`
error without any call to the outside; and when the remote route lookup answers with
status 404 it returns an empty, non-nil slice and a `nil` error as well. -/
theorem GetRouteESI_no_route {σ : Type} (env : RouteEnv σ) (destination origin : σ)
    (flag : String) (hflag : flag ∈ env.RoutePreferences)
    (hne : env.ID destination ≠ env.ID origin) :
    ((env.IsWormholeSpace destination = true ∨ env.IsWormholeSpace origin = true) →
      GetRouteESI env destination origin flag = (.returned (some []) none, [])) ∧
    (∀ err : String,
      env.GetRouteOriginDestination (env.ID destination) (env.ID origin)
          (env.flagString flag) = .failure 404 err →
      (GetRouteESI env destination origin flag).1 = .returned (some []) none) := by
  have hidx := slicesIndex_ne_of_mem _ _ hflag
  constructor
  · intro hw
    have hw' : (env.IsWormholeSpace destination || env.IsWormholeSpace origin) = true := by
      rcases hw with h | h <;> simp [h]
    unfold GetRouteESI
    rw [if_neg hidx, if_neg hne, if_pos hw']
  · intro err hans
    unfold GetRouteESI
    rw [if_neg hidx, if_neg hne]
    by_cases hw : (env.IsWormholeSpace destination || env.IsWormholeSpace origin) = true
    · rw [if_pos hw]
    · rw [if_neg hw]
      simp only [hans, if_true]

/-- C10 at concrete inputs: from Jita (30000142) to a wormhole system (31000005)
there is no route and no call is made; from Jita to Amarr (30002187), where the remote
service answers 404, the route is empty too. -/
theorem GetRouteESI_no_route_witness :
    GetRouteESI sampleRouteEnv 31000005 30000142 "shortest" =
        (.returned (some []) none, []) ∧
      (GetRouteESI sampleRouteEnv 30002187 30000142 "shortest").1 =
        .returned (some []) none :=
  ⟨(GetRouteESI_no_route sampleRouteEnv 31000005 30000142 "shortest"
      (by decide) (by decide)).1 (Or.inl (by decide)),
    (GetRouteESI_no_route sampleRouteEnv 30002187 30000142 "shortest"
      (by decide) (by decide)).2 "Not Found" rfl⟩

/-- C11: for a valid route preference and an origin and a destination with the same
ID, `GetRouteESI` returns the one-element route `[origin]` and a `nil` error without
any call to the outside, whether or not the system is in wormhole space. -/
theorem GetRouteESI_same_system {σ : Type} (env : RouteEnv σ) (destination origin : σ)
    (flag : String) (hflag : flag ∈ env.RoutePreferences)
    (hid : env.ID destination = env.ID origin) :
    GetRouteESI env destination origin flag = (.returned (some [origin]) none, []) := by
  unfold GetRouteESI
  rw [if_neg (slicesIndex_ne_of_mem _ _ hflag), if_pos hid]

/-- C11 at a concrete input: the route from the wormhole system 31000005 to itself. -/
theorem GetRouteESI_same_system_witness :
    sampleRouteEnv.IsWormholeSpace 31000005 = true ∧
      GetRouteESI sampleRouteEnv 31000005 31000005 "secure" =
        (.returned (some [31000005]) none, []) :=
  ⟨by decide,
    GetRouteESI_same_system sampleRouteEnv 31000005 31000005 "secure" (by decide) rfl⟩

theorem errgroupWait_eq_none_iff {α : Type} (finished : List Nat)
    (results : List (Except String α)) :
    errgroupWait finished results = none ↔ ∀ r ∈ results, errorOf r = none := by
  unfold errgroupWait
  cases h : finished.findSome? fun i => (results.get? i).bind errorOf with
  | some e =>
    obtain ⟨i, -, hi⟩ := List.exists_of_findSome?_eq_some h
    have hex : ∃ r ∈ results, errorOf r = some e := by
      simp only [List.get?_eq_getElem?] at hi
      cases hr : results[i]? with
      | none => simp [hr] at hi
      | some r =>
        rw [hr] at hi
        exact ⟨r, List.getElem?_mem hr, by simpa using hi⟩
    obtain ⟨r, hr, hre⟩ := hex
    constructor
    · intro hn
      cases hn
    · intro hall
      rw [hall r hr] at hre
      cases hre
  | none => simp [List.findSome?_eq_none_iff]

theorem filterMap_ok_forall₂ {σ : Type} (f : Int → Except String σ) (ids : List Int)
    (h : ∀ id ∈ ids, ∃ system, f id = .ok system) :
    List.Forall₂ (fun id system => f id = .ok system) ids
      ((ids.map f).filterMap fun
        | .ok system => some system
        | .error _ => none) := by
  induction ids with
  | nil => exact List.Forall₂.nil
  | cons id ids ih =>
    obtain ⟨system, hs⟩ := h id (List.mem_cons_self id ids)
    have hl := ih fun b hb => h b (List.mem_cons_of_mem id hb)
    simp only [List.map_cons, List.filterMap_cons, hs]
    exact List.Forall₂.cons hs hl

/-- C12: when the route lookup succeeds with the system IDs `ids`, and every ID
resolves to a solar system, `GetRouteESI` returns a route of the same length whose
`i`-th element is the solar system obtained for `ids[i]`, with a `nil` error; and when
the resolution of one of the IDs fails it returns the `nil` slice with an error. -/
theorem GetRouteESI_route_order {σ : Type} (env : RouteEnv σ) (destination origin : σ)
    (flag : String) (ids : List Int) (hflag : flag ∈ env.RoutePreferences)
    (hne : env.ID destination ≠ env.ID origin)
    (hwd : env.IsWormholeSpace destination = false)
    (hwo : env.IsWormholeSpace origin = false)
    (hans : env.GetRouteOriginDestination (env.ID destination) (env.ID origin)
      (env.flagString flag) = .success ids) :
    ((∀ id ∈ ids, ∃ system, env.GetOrCreateSolarSystemESI id = .ok system) →
      ∃ systems : List σ,
        (GetRouteESI env destination origin flag).1 = .returned (some systems) none ∧
        systems.length = ids.length ∧
        ∀ (i : Nat) (h₁ : i < ids.length) (h₂ : i < systems.length),
          env.GetOrCreateSolarSystemESI (ids.get ⟨i, h₁⟩) = .ok (systems.get ⟨i, h₂⟩)) ∧
    ((∃ id ∈ ids, ∃ e, env.GetOrCreateSolarSystemESI id = .error e) →
      ∃ e, (GetRouteESI env destination origin flag).1 = .returned none (some e)) := by
  have hidx := slicesIndex_ne_of_mem _ _ hflag
  have hw : ¬ (env.IsWormholeSpace destination || env.IsWormholeSpace origin) = true := by
    simp [hwd, hwo]
  constructor
  · intro hall
    have hnone : errgroupWait env.finished (ids.map env.GetOrCreateSolarSystemESI) = none := by
      rw [errgroupWait_eq_none_iff]
      intro r hr
      obtain ⟨id, hid, rfl⟩ := List.mem_map.mp hr
      obtain ⟨system, hs⟩ := hall id hid
      rw [hs]
      rfl
    have hf := List.forall₂_iff_get.mp (filterMap_ok_forall₂ _ ids hall)
    refine ⟨_, ?_, hf.1.symm, hf.2⟩
    unfold GetRouteESI
    rw [if_neg hidx, if_neg hne, if_neg hw]
    simp only [hans, hnone]
  · rintro ⟨id, hid, e, he⟩
    have hsome : errgroupWait env.finished (ids.map env.GetOrCreateSolarSystemESI) ≠ none := by
      rw [Ne, errgroupWait_eq_none_iff]
      intro hall
      have := hall _ (List.mem_map.mpr ⟨id, hid, rfl⟩)
      rw [he] at this
      cases this
    obtain ⟨e', he'⟩ := Option.ne_none_iff_exists'.mp hsome
    refine ⟨e', ?_⟩
    unfold GetRouteESI
    rw [if_neg hidx, if_neg hne, if_neg hw]
    simp only [hans, he']

/-- C12 at concrete inputs: the route 30000142, 30000144, 30002187 is returned in
this order when every system resolves, and the result is `nil` with an error when
30000144 does not resolve. -/
theorem GetRouteESI_route_order_witness :
    (∃ systems : List Int,
        (GetRouteESI sampleRouteEnvFound 30002187 30000142 "shortest").1 =
          .returned (some systems) none ∧
        systems.length = [30000142, 30000144, 30002187].length ∧
        ∀ (i : Nat) (h₁ : i < [30000142, 30000144, 30002187].length)
          (h₂ : i < systems.length),
          sampleRouteEnvFound.GetOrCreateSolarSystemESI
              ([30000142, 30000144, 30002187].get ⟨i, h₁⟩) =
            .ok (systems.get ⟨i, h₂⟩)) ∧
      ∃ e, (GetRouteESI sampleRouteEnvUnresolved 30002187 30000142 "shortest").1 =
        .returned none (some e) :=
  ⟨(GetRouteESI_route_order sampleRouteEnvFound 30002187 30000142 "shortest"
      [30000142, 30000144, 30002187] (by decide) (by decide) (by decide) (by decide)
      rfl).1 (fun id _ => ⟨id, rfl⟩),
    (GetRouteESI_route_order sampleRouteEnvUnresolved 30002187 30000142 "shortest"
      [30000142, 30000144, 30002187] (by decide) (by decide) (by decide) (by decide)
      rfl).2 ⟨30000144, by decide, "not found", rfl⟩⟩

/-! ## Single-flight keys -/

theorem charDigit_digitChar (d : Nat) (h : d < 10) : charDigit (Nat.digitChar d) = d := by
  interval_cases d <;> rfl

theorem map_charDigit_digitChar (l : List Nat) (h : ∀ d ∈ l, d < 10) :
    (l.map Nat.digitChar).map charDigit = l := by
  rw [List.map_map]
  conv_rhs => rw [← List.map_id l]
  apply List.map_congr_left
  intro d hd
  exact charDigit_digitChar d (h d hd)

theorem digits_reverse_lt (n : Nat) : ∀ d ∈ (Nat.digits 10 n).reverse, d < 10 := by
  intro d hd
  exact Nat.digits_lt_base (by norm_num) (List.mem_reverse.mp hd)

theorem formatNat_injective (n m : Nat) (h : formatNat n = formatNat m) : n = m := by
  have key : ∀ k, (formatNat k).map charDigit =
      if k = 0 then [0] else (Nat.digits 10 k).reverse := by
    intro k
    unfold formatNat
    split_ifs with hk
    · rfl
    · exact map_charDigit_digitChar _ (digits_reverse_lt k)
  have h2 := congrArg (List.map charDigit) h
  rw [key n, key m] at h2
  by_cases hn : n = 0 <;> by_cases hm : m = 0
  · rw [hn, hm]
  · rw [if_pos hn, if_neg hm] at h2
    exfalso
    have h3 := congrArg List.reverse h2
    simp only [List.reverse_cons, List.reverse_nil, List.nil_append,
      List.reverse_reverse] at h3
    have h4 := Nat.getLast_digit_ne_zero 10 hm
    simp [← h3] at h4
  · rw [if_neg hn, if_pos hm] at h2
    exfalso
    have h3 := congrArg List.reverse h2
    simp only [List.reverse_cons, List.reverse_nil, List.nil_append,
      List.reverse_reverse] at h3
    have h4 := Nat.getLast_digit_ne_zero 10 hn
    simp [h3] at h4
  · rw [if_neg hn, if_neg hm] at h2
    exact Nat.digits.injective 10 (List.reverse_injective h2)

theorem formatNat_no_minus (n : Nat) : ∀ c ∈ formatNat n, c ≠ '-' := by
  intro c hc
  unfold formatNat at hc
  split_ifs at hc with hn
  · rw [List.mem_singleton] at hc
    rw [hc]
    decide
  · obtain ⟨d, hd, rfl⟩ := List.mem_map.mp hc
    have hlt := digits_reverse_lt n d hd
    interval_cases d <;> decide

theorem formatInt_injective (a b : Int) (h : formatInt a = formatInt b) : a = b := by
  unfold formatInt at h
  split_ifs at h with ha hb hb
  · have h2 := List.cons_injective (congrArg String.data h)
    have := formatNat_injective _ _ h2
    omega
  · exfalso
    have h2 : '-' :: formatNat a.natAbs = formatNat b.natAbs := congrArg String.data h
    exact formatNat_no_minus b.natAbs '-' (by rw [← h2]; exact List.mem_cons_self _ _) rfl
  · exfalso
    have h2 : formatNat a.natAbs = '-' :: formatNat b.natAbs := congrArg String.data h
    exact formatNat_no_minus a.natAbs '-' (by rw [h2]; exact List.mem_cons_self _ _) rfl
  · have := formatNat_injective _ _ (congrArg String.data h)
    omega

/-- Two texts that differ within their first `n` characters stay different whatever
is appended to them. -/
theorem append_ne_of_take_ne (p q x y : String) (n : Nat) (hp : n ≤ p.data.length)
    (hq : n ≤ q.data.length) (hne : p.data.take n ≠ q.data.take n) : p ++ x ≠ q ++ y := by
  intro h
  have h2 := congrArg (fun t : String => t.data.take n) h
  simp only [String.data_append, List.take_append_of_le_length hp,
    List.take_append_of_le_length hq] at h2
  exact hne h2

theorem append_left_cancel_string (p x y : String) (h : p ++ x = p ++ y) : x = y := by
  have h2 := congrArg String.data h
  simp only [String.data_append, List.append_cancel_left_eq] at h2
  exact String.ext h2

theorem singleflightKey_injective (k₁ k₂ : EntityKind) (id₁ id₂ : Int)
    (h : singleflightKey k₁ id₁ = singleflightKey k₂ id₂) : k₁ = k₂ ∧ id₁ = id₂ := by
  cases k₁ <;> cases k₂ <;>
    first
    | exact ⟨rfl, formatInt_injective _ _ (append_left_cancel_string _ _ _ h)⟩
    | exact absurd h
        (append_ne_of_take_ne _ _ _ _ 7 (by decide) (by decide) (by decide))

theorem depth_lt_of_createsInside (a b : EntityKind) (h : b ∈ createsInside a) :
    b.depth < a.depth := by
  cases a <;> simp [createsInside] at h <;> subst h <;> decide

theorem depth_lt_of_nested (a b : EntityKind)
    (h : Relation.TransGen (fun x y => y ∈ createsInside x) a b) : b.depth < a.depth := by
  induction h with
  | single h => exact depth_lt_of_createsInside _ _ h
  | tail _ h ih => exact lt_trans (depth_lt_of_createsInside _ _ h) ih

/-- C19: the keys two entity creations pass to the single-flight group are equal if
and only if both create the same kind of entity with the same id; and a creation
nested, at any depth, inside another one uses a key different from the key that one
holds. -/
theorem singleflightKey_eq_iff (k₁ k₂ : EntityKind) (id₁ id₂ : Int) :
    (singleflightKey k₁ id₁ = singleflightKey k₂ id₂ ↔ k₁ = k₂ ∧ id₁ = id₂) ∧
    (Relation.TransGen (fun x y => y ∈ createsInside x) k₁ k₂ →
      singleflightKey k₁ id₁ ≠ singleflightKey k₂ id₂) := by
  constructor
  · constructor
    · exact singleflightKey_injective k₁ k₂ id₁ id₂
    · rintro ⟨rfl, rfl⟩
      rfl
  · intro hnested heq
    have hlt := depth_lt_of_nested k₁ k₂ hnested
    rw [(singleflightKey_injective k₁ k₂ id₁ id₂ heq).1] at hlt
    exact lt_irrefl _ hlt

theorem formatInt_30000142 : formatInt 30000142 = "30000142" := by
  simp [formatInt, formatNat]
  decide

/-- C19 at concrete inputs: the key of the creation of solar system 30000142, and its
difference from the key of the planet creation with the same id that holds it. -/
theorem singleflightKey_eq_iff_witness :
    singleflightKey .solarSystem 30000142 = "createSolarSystemFromESI-30000142" ∧
      singleflightKey .planet 30000142 ≠ singleflightKey .solarSystem 30000142 :=
  ⟨by rw [singleflightKey, formatInt_30000142]; decide,
    (singleflightKey_eq_iff .planet .solarSystem 30000142 30000142).2
      (Relation.TransGen.single (by decide))⟩

/-! ## Character attributes -/

/-- C18: called with a section other than `SectionAttributes`, `updateAttributesESI`
panics and leaves the state as it was: neither the fetch callback nor the storage
write nor a status update is invoked; called with `SectionAttributes` it does not
take that branch: it returns. -/
theorem updateAttributesESI_wrong_section (env : AttributesEnv)
    (arg : CharacterUpdateSectionParams)
    (sv : Service GetCharactersCharacterIdAttributesOk) :
    (arg.Section ≠ env.SectionAttributes →
      updateAttributesESI env arg sv = (.panicked "called with wrong section", sv)) ∧
    (arg.Section = env.SectionAttributes →
      ∃ result, (updateAttributesESI env arg sv).1 = .returned result) := by
  constructor
  · intro h
    unfold updateAttributesESI
    rw [if_pos h]
  · intro h
    unfold updateAttributesESI
    rw [if_neg (not_not.mpr h)]
    exact ⟨_, rfl⟩

/-- C18 at concrete inputs: a call for the section "wallet" panics without touching
the state, a call for the section "attributes" returns. -/
theorem updateAttributesESI_wrong_section_witness :
    updateAttributesESI sampleAttributesEnv
        { CharacterID := 42, Section := "wallet", ForceUpdate := false }
        { registry := walletRegistry, invocations := [] } =
      (.panicked "called with wrong section",
        { registry := walletRegistry, invocations := [] }) ∧
    ∃ result,
      (updateAttributesESI sampleAttributesEnv
        { CharacterID := 42, Section := "attributes", ForceUpdate := false }
        { registry := walletRegistry, invocations := [] }).1 = .returned result :=
  ⟨(updateAttributesESI_wrong_section sampleAttributesEnv
      { CharacterID := 42, Section := "wallet", ForceUpdate := false }
      { registry := walletRegistry, invocations := [] }).1 (by decide),
    (updateAttributesESI_wrong_section sampleAttributesEnv
      { CharacterID := 42, Section := "attributes", ForceUpdate := false }
      { registry := walletRegistry, invocations := [] }).2 rfl⟩

/-! ## Navigator -/

/-- On a stack of pairwise distinct pages, `Container.Remove` of the top page leaves
the pages below it, in their order. -/
theorem erase_getLast_of_nodup (l : List Nat) (hl : l ≠ []) (hd : l.Nodup) :
    l.erase (l.getLast hl) = l.dropLast := by
  have hsplit := List.dropLast_append_getLast hl
  have hnot : l.getLast hl ∉ l.dropLast := by
    intro hmem
    rw [← hsplit, List.nodup_append] at hd
    exact hd.2.2 hmem (List.mem_singleton_self _) 
  have hstep : l.erase (l.getLast hl) = (l.dropLast ++ [l.getLast hl]).erase (l.getLast hl) :=
    congrArg (fun x => x.erase (l.getLast hl)) hsplit.symm
  rw [hstep, List.erase_append_right _ hnot]
  simp

theorem getLast?_eq_some_getLast (l : List Nat) (hl : l ≠ []) :
    l.getLast? = some (l.getLast hl) :=
  List.getLast?_eq_getLast l hl

theorem removeAdditional_of_length (k : Nat) :
    ∀ (root : Nat) (rest : List Nat), rest.length = k → (root :: rest).Nodup →
      Navigator.removeAdditional (root :: rest) = [root] := by
  induction k with
  | zero =>
    intro root rest hn _
    have hrest : rest = [] := List.length_eq_zero.mp hn
    subst hrest
    rw [Navigator.removeAdditional]
    simp
  | succ k ih =>
    intro root rest hn hd
    have hne : rest ≠ [] := by
      intro h
      rw [h] at hn
      cases hn
    rw [Navigator.removeAdditional]
    have hlen : 1 < (root :: rest).length := by
      simp only [List.length_cons]
      omega
    rw [dif_pos hlen, erase_getLast_of_nodup _ (List.cons_ne_nil _ _) hd,
      List.dropLast_cons_of_ne_nil hne]
    apply ih
    · rw [List.length_dropLast, hn]
      rfl
    · exact hd.sublist (List.Sublist.cons₂ _ (List.dropLast_sublist rest))

theorem removeAdditional_of_nodup (root : Nat) (rest : List Nat)
    (hd : (root :: rest).Nodup) : Navigator.removeAdditional (root :: rest) = [root] :=
  removeAdditional_of_length rest.length root rest rfl hd

/-- What `showTop` returns on a stack that is not empty: the same stack, with its top
page shown. -/
theorem showTop_of_ne_nil (n : Navigator) (hl : n.stack ≠ []) :
    ∃ n', n.showTop = .returned n' ∧ n'.stack = n.stack ∧
      n'.hidden (n.stack.getLast hl) = false := by
  unfold Navigator.showTop Navigator.topPage
  rw [getLast?_eq_some_getLast _ hl]
  by_cases hb : n.hasNavBar = true
  · exact ⟨_, rfl, by simp [hb], by simp [hb]⟩
  · exact ⟨_, rfl, by simp [hb], by simp [hb]⟩

/-- C13: on a stack of n ≥ 2 pairwise distinct pages `Pop` returns, the stack is then
the first n−1 pages in their order and its top page is visible; on a stack of fewer
than 2 pages `Pop` returns and leaves the navigator and the pages as they were. -/
theorem Pop_removes_top (n : Navigator) :
    (n.stack.Nodup → 2 ≤ n.stack.length →
      ∃ n' top, n.Pop = .returned n' ∧
        n'.stack = n.stack.take (n.stack.length - 1) ∧
        n'.stack.getLast? = some top ∧ n'.hidden top = false) ∧
    (n.stack.length < 2 → n.Pop = .returned n) := by
  constructor
  · intro hd hlen
    have hl : n.stack ≠ [] := List.ne_nil_of_length_pos (by omega)
    have hdrop : n.stack.dropLast ≠ [] := by
      apply List.ne_nil_of_length_pos
      rw [List.length_dropLast]
      omega
    have hstack : ({ n with stack := n.stack.erase (n.stack.getLast hl) } : Navigator).stack ≠
        [] := by
      show n.stack.erase (n.stack.getLast hl) ≠ []
      rw [erase_getLast_of_nodup _ hl hd]
      exact hdrop
    obtain ⟨n', hshow, hst, hvis⟩ := showTop_of_ne_nil _ hstack
    refine ⟨n', _, ?_, ?_, ?_, hvis⟩
    · unfold Navigator.Pop Navigator.topPage
      rw [if_neg (by omega), getLast?_eq_some_getLast _ hl]
      exact hshow
    · rw [hst, ← List.dropLast_eq_take]
      exact erase_getLast_of_nodup _ hl hd
    · rw [hst]
      exact getLast?_eq_some_getLast _ hstack
  · intro hlen
    unfold Navigator.Pop
    rw [if_pos hlen]

/-- C13 at a concrete input: on the pages 1, 2, 3 `Pop` leaves the pages 1, 2 and
page 2 is then visible. -/
theorem Pop_removes_top_witness :
    ∃ n' top, sampleNavigator.Pop = .returned n' ∧
      n'.stack = [1, 2, 3].take ([1, 2, 3].length - 1) ∧
      n'.stack.getLast? = some top ∧ n'.hidden top = false :=
  (Pop_removes_top sampleNavigator).1 (by decide) (by decide)

/-- C14: on a stack of pairwise distinct pages that is not empty `PopAll` returns,
the stack is then the root page alone and the root page is visible; on an empty
stack `PopAll` returns and leaves the navigator and the pages as they were. -/
theorem PopAll_leaves_root (n : Navigator) :
    (∀ (root : Nat) (rest : List Nat), n.stack = root :: rest → n.stack.Nodup →
      ∃ n', n.PopAll = .returned n' ∧ n'.stack = [root] ∧ n'.hidden root = false) ∧
    (n.stack = [] → n.PopAll = .returned n) := by
  constructor
  · intro root rest hstack hd
    have hrem : Navigator.removeAdditional n.stack = [root] := by
      rw [hstack] at hd ⊢
      exact removeAdditional_of_nodup root rest hd
    have hne : ({ n with stack := Navigator.removeAdditional n.stack } : Navigator).stack ≠
        [] := by
      show Navigator.removeAdditional n.stack ≠ []
      rw [hrem]
      exact List.cons_ne_nil _ _
    obtain ⟨n', hshow, hst, hvis⟩ := showTop_of_ne_nil _ hne
    have hst' : n'.stack = [root] := hst.trans hrem
    refine ⟨n', ?_, hst', ?_⟩
    · unfold Navigator.PopAll
      rw [if_neg (by rw [hstack]; simp)]
      exact hshow
    · have hlast : ({ n with stack := Navigator.removeAdditional n.stack } :
          Navigator).stack.getLast hne = root := by
        have h1 : ∀ (l : List Nat) (h : l ≠ []), l = [root] → l.getLast h = root := by
          intro l h hl
          subst hl
          rfl
        exact h1 _ hne hrem
      rw [← hlast]
      exact hvis
  · intro hempty
    unfold Navigator.PopAll
    rw [if_pos (by rw [hempty]; rfl)]

/-- C14 at a concrete input: on the pages 1, 2, 3 `PopAll` leaves the root page 1,
visible. -/
theorem PopAll_leaves_root_witness :
    ∃ n', sampleNavigator.PopAll = .returned n' ∧ n'.stack = [1] ∧ n'.hidden 1 = false :=
  (PopAll_leaves_root sampleNavigator).1 1 [2, 3] rfl (by decide)

theorem push_spec (n : Navigator) (ab : Nat) (hideNavBar : Bool) :
    (n.stack = [] → n.push ab hideNavBar = .panicked "index out of range [-1]") ∧
    (n.stack ≠ [] →
      ∃ n', n.push ab hideNavBar = .returned n' ∧ n'.stack = n.stack ++ [ab]) := by
  constructor
  · intro h
    unfold Navigator.push Navigator.topPage
    by_cases hb : (hideNavBar && n.hasNavBar) = true <;> simp [hb, h]
  · intro h
    unfold Navigator.push Navigator.topPage
    by_cases hb : (hideNavBar && n.hasNavBar) = true <;>
      simp [hb, getLast?_eq_some_getLast _ h]

/-- C15, the code at the failing input: `Push` on the navigator `NewNavigator()`
returns, which has no root page, panics in `topPage`, whatever the page pushed; on a
navigator whose stack is not empty `Push` returns with the page appended. -/
theorem Push_on_NewNavigator_panics (hidden attached : Nat → Bool) (ab : Nat)
    (n : Navigator) :
    (Navigator.NewNavigator hidden attached).Push ab =
        .panicked "index out of range [-1]" ∧
    (n.stack ≠ [] → ∃ n', n.Push ab = .returned n' ∧ n'.stack = n.stack ++ [ab]) :=
  ⟨(push_spec (Navigator.NewNavigator hidden attached) ab false).1 rfl,
    (push_spec n ab false).2⟩

/-! ## Row-wrap layout -/

theorem layoutLoop_hidden {F : Type} (ar : Arith F) (l : rowWrapLayout F)
    (containerSize : Size F) (rowHeight : F) (pos : Position F) (rows : Nat)
    (o : CanvasObject F) (objects : List (CanvasObject F)) (h : o.visible = false) :
    layoutLoop ar l containerSize rowHeight pos rows (o :: objects) =
      (o :: (layoutLoop ar l containerSize rowHeight pos rows objects).1,
        (layoutLoop ar l containerSize rowHeight pos rows objects).2) := by
  rw [layoutLoop]
  simp [h]

theorem layoutLoop_visible {F : Type} (ar : Arith F) (l : rowWrapLayout F)
    (containerSize : Size F) (rowHeight : F) (pos : Position F) (rows : Nat)
    (o : CanvasObject F) (objects : List (CanvasObject F)) (h : o.visible = true) :
    layoutLoop ar l containerSize rowHeight pos rows (o :: objects) =
      (((o.Resize o.minSize).Move
          (if ar.gt (ar.add pos.X (ar.add o.minSize.Width l.horizontalPadding))
              containerSize.Width then
            NewPos ar.zero (ar.mul (ar.ofNat rows) (ar.add rowHeight l.verticalPadding))
          else pos)) ::
        (layoutLoop ar l containerSize rowHeight
          (Position.Add ar
            (if ar.gt (ar.add pos.X (ar.add o.minSize.Width l.horizontalPadding))
                containerSize.Width then
              NewPos ar.zero (ar.mul (ar.ofNat rows) (ar.add rowHeight l.verticalPadding))
            else pos)
            (NewPos (ar.add o.minSize.Width l.horizontalPadding) ar.zero))
          (if ar.gt (ar.add pos.X (ar.add o.minSize.Width l.horizontalPadding))
              containerSize.Width then rows + 1 else rows)
          objects).1,
        (layoutLoop ar l containerSize rowHeight
          (Position.Add ar
            (if ar.gt (ar.add pos.X (ar.add o.minSize.Width l.horizontalPadding))
                containerSize.Width then
              NewPos ar.zero (ar.mul (ar.ofNat rows) (ar.add rowHeight l.verticalPadding))
            else pos)
            (NewPos (ar.add o.minSize.Width l.horizontalPadding) ar.zero))
          (if ar.gt (ar.add pos.X (ar.add o.minSize.Width l.horizontalPadding))
              containerSize.Width then rows + 1 else rows)
          objects).2) := by
  rw [layoutLoop]
  simp [h]

/-- The loop of `Layout` passes over hidden objects: it leaves them as they are, and
does to the visible objects what it does to them in the list without the hidden ones. -/
theorem layoutLoop_filter {F : Type} (ar : Arith F) (l : rowWrapLayout F)
    (containerSize : Size F) (rowHeight : F) (objects : List (CanvasObject F)) :
    ∀ (pos : Position F) (rows : Nat),
      (layoutLoop ar l containerSize rowHeight pos rows objects).1.filter (fun o => o.visible) =
          (layoutLoop ar l containerSize rowHeight pos rows
            (objects.filter fun o => o.visible)).1 ∧
        (layoutLoop ar l containerSize rowHeight pos rows objects).2 =
          (layoutLoop ar l containerSize rowHeight pos rows
            (objects.filter fun o => o.visible)).2 ∧
        List.Forall₂ (fun o o' => o'.visible = o.visible ∧ (o.visible = false → o' = o))
          objects (layoutLoop ar l containerSize rowHeight pos rows objects).1 := by
  induction objects with
  | nil =>
    intro pos rows
    exact ⟨rfl, rfl, List.Forall₂.nil⟩
  | cons o objects ih =>
    intro pos rows
    by_cases hv : o.visible = true
    · have hf : (o :: objects).filter (fun o => o.visible) =
          o :: objects.filter fun o => o.visible := by
        simp [List.filter_cons, hv]
      rw [hf, layoutLoop_visible _ _ _ _ _ _ _ _ hv, layoutLoop_visible _ _ _ _ _ _ _ _ hv]
      obtain ⟨h1, h2, h3⟩ := ih
        (Position.Add ar
          (if ar.gt (ar.add pos.X (ar.add o.minSize.Width l.horizontalPadding))
              containerSize.Width then
            NewPos ar.zero (ar.mul (ar.ofNat rows) (ar.add rowHeight l.verticalPadding))
          else pos)
          (NewPos (ar.add o.minSize.Width l.horizontalPadding) ar.zero))
        (if ar.gt (ar.add pos.X (ar.add o.minSize.Width l.horizontalPadding))
            containerSize.Width then rows + 1 else rows)
      refine ⟨?_, h2, List.Forall₂.cons ⟨rfl, ?_⟩ h3⟩
      · rw [List.filter_cons]
        simp only [CanvasObject.Move, CanvasObject.Resize, hv, if_true]
        rw [h1]
      · intro hh
        rw [hv] at hh
        cases hh
    · have hv' : o.visible = false := by simpa using hv
      have hf : (o :: objects).filter (fun o => o.visible) =
          objects.filter fun o => o.visible := by
        simp [List.filter_cons, hv']
      rw [hf, layoutLoop_hidden _ _ _ _ _ _ _ _ hv']
      obtain ⟨h1, h2, h3⟩ := ih pos rows
      refine ⟨?_, h2, List.Forall₂.cons ⟨rfl, fun _ => rfl⟩ h3⟩
      rw [List.filter_cons]
      simp only [hv', Bool.false_eq_true, if_false]
      exact h1

theorem Layout_cons {F : Type} (ar : Arith F) (l : rowWrapLayout F)
    (first : CanvasObject F) (rest : List (CanvasObject F)) (containerSize : Size F) :
    l.Layout ar (first :: rest) containerSize =
      ({ l with
          rowCount := (layoutLoop ar l containerSize first.minSize.Height
            (NewPos ar.zero ar.zero) 1 (first :: rest)).2 },
        (layoutLoop ar l containerSize first.minSize.Height
          (NewPos ar.zero ar.zero) 1 (first :: rest)).1) :=
  rfl

/-- C17: in a list of objects with the same minimum height that holds a visible
object, `Layout` leaves every hidden object as it is (neither moved nor resized), and
the visible objects and the recorded row count come out exactly as from `Layout` on
the list without the hidden objects. -/
theorem Layout_ignores_hidden {F : Type} (ar : Arith F) (l : rowWrapLayout F)
    (objects : List (CanvasObject F)) (containerSize : Size F) (height : F)
    (hheight : ∀ o ∈ objects, o.minSize.Height = height)
    (hvis : ∃ o ∈ objects, o.visible = true) :
    List.Forall₂ (fun o o' => o.visible = false → o' = o) objects
        (l.Layout ar objects containerSize).2 ∧
      (l.Layout ar objects containerSize).2.filter (fun o => o.visible) =
        (l.Layout ar (objects.filter fun o => o.visible) containerSize).2 ∧
      (l.Layout ar objects containerSize).1.rowCount =
        (l.Layout ar (objects.filter fun o => o.visible) containerSize).1.rowCount := by
  obtain ⟨v, hv, hvv⟩ := hvis
  have hvf : v ∈ objects.filter fun o => o.visible := List.mem_filter.mpr ⟨hv, hvv⟩
  obtain ⟨first, rest, hobj⟩ := List.exists_cons_of_ne_nil (List.ne_nil_of_mem hv)
  obtain ⟨first', rest', hfil⟩ := List.exists_cons_of_ne_nil (List.ne_nil_of_mem hvf)
  have hmem' : first' ∈ objects := by
    have : first' ∈ objects.filter fun o => o.visible := by
      rw [hfil]
      exact List.mem_cons_self _ _
    exact (List.mem_filter.mp this).1
  have hh : first'.minSize.Height = first.minSize.Height := by
    rw [hheight first' hmem', hheight first (by rw [hobj]; exact List.mem_cons_self _ _)]
  have hL : l.Layout ar objects containerSize =
      ({ l with
          rowCount := (layoutLoop ar l containerSize first.minSize.Height
            (NewPos ar.zero ar.zero) 1 objects).2 },
        (layoutLoop ar l containerSize first.minSize.Height
          (NewPos ar.zero ar.zero) 1 objects).1) := by
    rw [hobj]
    rfl
  have hL' : l.Layout ar (objects.filter fun o => o.visible) containerSize =
      ({ l with
          rowCount := (layoutLoop ar l containerSize first.minSize.Height
            (NewPos ar.zero ar.zero) 1 (objects.filter fun o => o.visible)).2 },
        (layoutLoop ar l containerSize first.minSize.Height
          (NewPos ar.zero ar.zero) 1 (objects.filter fun o => o.visible)).1) := by
    rw [hfil, Layout_cons, hh]
  rw [hL, hL']
  obtain ⟨h1, h2, h3⟩ := layoutLoop_filter ar l containerSize first.minSize.Height
    objects (NewPos ar.zero ar.zero) 1
  exact ⟨h3.imp fun _ _ h => h.2, h1, h2⟩

set_option maxRecDepth 100000 in
/-- C17 at a concrete input: a hidden object between two visible ones, all of height
10, in a container of width 100 with padding 4: the hidden object keeps its size and
its position, and the visible ones are laid out as without it. -/
theorem Layout_ignores_hidden_witness :
    List.Forall₂ (fun o o' => o.visible = false → o' = o)
        [visibleObject 60 10, hiddenObject 30 10, visibleObject 50 10]
        ((paddedLayout 4 4).Layout float32Arith
          [visibleObject 60 10, hiddenObject 30 10, visibleObject 50 10]
          { Width := Float32.ofInt 100, Height := Float32.ofInt 100 }).2 ∧
      ((paddedLayout 4 4).Layout float32Arith
          [visibleObject 60 10, hiddenObject 30 10, visibleObject 50 10]
          { Width := Float32.ofInt 100, Height := Float32.ofInt 100 }).2.filter
            (fun o => o.visible) =
        ((paddedLayout 4 4).Layout float32Arith
          ([visibleObject 60 10, hiddenObject 30 10, visibleObject 50 10].filter
            fun o => o.visible)
          { Width := Float32.ofInt 100, Height := Float32.ofInt 100 }).2 ∧
      ((paddedLayout 4 4).Layout float32Arith
          [visibleObject 60 10, hiddenObject 30 10, visibleObject 50 10]
          { Width := Float32.ofInt 100, Height := Float32.ofInt 100 }).1.rowCount =
        ((paddedLayout 4 4).Layout float32Arith
          ([visibleObject 60 10, hiddenObject 30 10, visibleObject 50 10].filter
            fun o => o.visible)
          { Width := Float32.ofInt 100, Height := Float32.ofInt 100 }).1.rowCount :=
  Layout_ignores_hidden float32Arith (paddedLayout 4 4)
    [visibleObject 60 10, hiddenObject 30 10, visibleObject 50 10]
    { Width := Float32.ofInt 100, Height := Float32.ofInt 100 } (Float32.ofInt 10)
    (by decide) ⟨visibleObject 60 10, by decide, rfl⟩

/-! ## The arithmetic of `float32` -/

theorem gridShiftAux_le_iff (fuel : Nat) : ∀ (n k : Nat), n ≤ fuel →
    (gridShiftAux fuel n ≤ k ↔ n < 2 ^ (24 + k)) := by
  induction fuel with
  | zero =>
    intro n k hn
    have : n = 0 := by omega
    subst this
    simp [gridShiftAux]
  | succ fuel ih =>
    intro n k hn
    rw [gridShiftAux]
    by_cases h : n < 2 ^ 24
    · rw [if_pos h]
      have : 2 ^ 24 ≤ 2 ^ (24 + k) := Nat.pow_le_pow_right (by norm_num) (by omega)
      constructor
      · intro _; omega
      · intro _; omega
    · rw [if_neg h]
      have hn2 : n / 2 ≤ fuel := by omega
      cases k with
      | zero =>
        constructor
        · intro h0; omega
        · intro h0; simp at h0; omega
      | succ k =>
        rw [Nat.add_le_add_iff_right, ih (n / 2) k hn2]
        have : 2 ^ (24 + (k + 1)) = 2 * 2 ^ (24 + k) := by
          rw [← Nat.add_assoc, Nat.pow_succ]; ring
        rw [this]
        omega

theorem gridShift_le_iff (n k : Nat) : gridShift n ≤ k ↔ n < 2 ^ (24 + k) :=
  gridShiftAux_le_iff n n k (le_refl n)

theorem lt_pow_gridShift (n : Nat) : n < 2 ^ (24 + gridShift n) :=
  (gridShift_le_iff n _).mp (le_refl _)

theorem gridShift_mono {n m : Nat} (h : n ≤ m) : gridShift n ≤ gridShift m :=
  (gridShift_le_iff n _).mpr (lt_of_le_of_lt h (lt_pow_gridShift m))

theorem pow_le_of_gridShift_pos (n : Nat) (h : 0 < gridShift n) :
    2 ^ (23 + gridShift n) ≤ n := by
  by_contra hlt
  push_neg at hlt
  have : gridShift n ≤ gridShift n - 1 := by
    rw [gridShift_le_iff]
    have : 24 + (gridShift n - 1) = 23 + gridShift n := by omega
    rw [this]
    exact hlt
  omega

theorem roundToGrid_eq (s N : Nat) :
    roundToGrid s N = N / 2 ^ s * 2 ^ s ∨ roundToGrid s N = (N / 2 ^ s + 1) * 2 ^ s := by
  unfold roundToGrid
  simp only
  split_ifs
  · right; rfl
  · left; rfl

theorem roundToGrid_mul (s k : Nat) : roundToGrid s (k * 2 ^ s) = k * 2 ^ s := by
  have hpos : 0 < 2 ^ s := Nat.pow_pos (by norm_num)
  unfold roundToGrid
  simp only [Nat.mul_mod_left, Nat.mul_div_cancel _ hpos]
  rw [if_neg]
  rintro (h | ⟨h, -⟩) <;> omega

theorem roundToGrid_mono (s : Nat) {N M : Nat} (h : N ≤ M) :
    roundToGrid s N ≤ roundToGrid s M := by
  have hpos : 0 < 2 ^ s := Nat.pow_pos (by norm_num)
  have hq : N / 2 ^ s ≤ M / 2 ^ s := Nat.div_le_div_right h
  rcases Nat.lt_or_eq_of_le hq with hlt | heq
  · have h1 : roundToGrid s N ≤ (N / 2 ^ s + 1) * 2 ^ s := by
      rcases roundToGrid_eq s N with e | e <;> rw [e]
      · exact Nat.mul_le_mul_right _ (by omega)
    have h2 : M / 2 ^ s * 2 ^ s ≤ roundToGrid s M := by
      rcases roundToGrid_eq s M with e | e <;> rw [e]
      · exact Nat.mul_le_mul_right _ (by omega)
    exact le_trans h1 (le_trans (Nat.mul_le_mul_right _ hlt) h2)
  · have hr : N % 2 ^ s ≤ M % 2 ^ s := by
      have e1 := Nat.div_add_mod N (2 ^ s)
      have e2 := Nat.div_add_mod M (2 ^ s)
      rw [heq] at e1
      omega
    unfold roundToGrid
    simp only
    rw [heq]
    by_cases hN : 2 ^ s < 2 * (N % 2 ^ s) ∨ (2 * (N % 2 ^ s) = 2 ^ s ∧ M / 2 ^ s % 2 = 1)
    · have hM : 2 ^ s < 2 * (M % 2 ^ s) ∨ (2 * (M % 2 ^ s) = 2 ^ s ∧ M / 2 ^ s % 2 = 1) := by
        rcases hN with h1 | ⟨h1, h2⟩
        · left; omega
        · by_cases h3 : 2 * (M % 2 ^ s) = 2 ^ s
          · right; exact ⟨h3, h2⟩
          · left; omega
      rw [if_pos hN, if_pos hM]
    · rw [if_neg hN]
      split_ifs
      · exact Nat.mul_le_mul_right _ (by omega)
      · exact le_refl _

theorem roundToGrid_dvd (s N : Nat) : 2 ^ s ∣ roundToGrid s N := by
  rcases roundToGrid_eq s N with e | e <;> rw [e] <;> exact Nat.dvd_mul_left _ _

/-- Rounding a number below `2 ^ (24 + s)` to the multiples of `2 ^ s` gives at most
`2 ^ (24 + s)`. -/
theorem roundToGrid_le_pow (s N : Nat) (h : N < 2 ^ (24 + s)) :
    roundToGrid s N ≤ 2 ^ (24 + s) := by
  have := roundToGrid_mono s (le_of_lt h)
  have e : (2:Nat) ^ (24 + s) = 2 ^ 24 * 2 ^ s := Nat.pow_add 2 24 s
  rw [e, roundToGrid_mul] at this
  rw [e]
  exact this

theorem roundToEven_zero_shift (N : Nat) :
    roundToEven N 0 = roundToGrid (gridShift N) N := by
  simp [roundToEven]

theorem roundToEven_mono {N M : Nat} (h : N ≤ M) : roundToEven N 0 ≤ roundToEven M 0 := by
  rw [roundToEven_zero_shift, roundToEven_zero_shift]
  rcases Nat.lt_or_eq_of_le (gridShift_mono h) with hlt | heq
  · have hposM : 0 < gridShift M := by omega
    have hB := pow_le_of_gridShift_pos M hposM
    have hN : N < 2 ^ (24 + gridShift N) := lt_pow_gridShift N
    have h1 : roundToGrid (gridShift N) N ≤ 2 ^ (24 + gridShift N) :=
      roundToGrid_le_pow _ _ hN
    have h2 : (2:Nat) ^ (24 + gridShift N) ≤ 2 ^ (23 + gridShift M) :=
      Nat.pow_le_pow_right (by norm_num) (by omega)
    have h3 : (2:Nat) ^ (23 + gridShift M) ≤ roundToGrid (gridShift M) M := by
      have e : (2:Nat) ^ (23 + gridShift M) = 2 ^ 23 * 2 ^ gridShift M := Nat.pow_add 2 23 _
      have := roundToGrid_mono (gridShift M) hB
      rw [e, roundToGrid_mul] at this
      rw [e]
      exact this
    exact le_trans h1 (le_trans h2 h3)
  · rw [heq]
    exact roundToGrid_mono _ h

theorem roundToGrid_of_dvd (s N : Nat) (h : 2 ^ s ∣ N) : roundToGrid s N = N := by
  obtain ⟨k, rfl⟩ := h
  rw [Nat.mul_comm, roundToGrid_mul]

theorem roundToEven_of_dvd (N : Nat) (h : N % 2 ^ gridShift N = 0) : roundToEven N 0 = N := by
  rw [roundToEven_zero_shift]
  exact roundToGrid_of_dvd _ _ (Nat.dvd_of_mod_eq_zero h)

/-- A number `c * 2 ^ t` with `c ≤ 2 ^ 24` lies on its own grid. -/
theorem pow_gridShift_dvd (c t : Nat) (hc : c ≤ 2 ^ 24) :
    2 ^ gridShift (c * 2 ^ t) ∣ c * 2 ^ t := by
  rcases Nat.lt_or_eq_of_le hc with hlt | heq
  · have hm : c * 2 ^ t < 2 ^ (24 + t) := by
      rw [Nat.pow_add]
      exact Nat.mul_lt_mul_of_pos_right hlt (Nat.pow_pos (by norm_num))
    have hg : gridShift (c * 2 ^ t) ≤ t := (gridShift_le_iff _ _).mpr hm
    exact Dvd.dvd.mul_left (Nat.pow_dvd_pow 2 hg) c
  · subst heq
    rw [← Nat.pow_add]
    have hm : (2:Nat) ^ (24 + t) < 2 ^ (24 + (t + 1)) :=
      Nat.pow_lt_pow_right (by norm_num) (by omega)
    have hg : gridShift (2 ^ (24 + t)) ≤ t + 1 := (gridShift_le_iff _ _).mpr hm
    exact Nat.pow_dvd_pow 2 (by omega)

theorem roundToEven_dvd (N shift : Nat) :
    roundToEven N shift % 2 ^ gridShift (roundToEven N shift) = 0 := by
  apply Nat.mod_eq_zero_of_dvd
  unfold roundToEven
  have hs : shift ≤ max (gridShift N) shift := le_max_right _ _
  have hg : gridShift N ≤ max (gridShift N) shift := le_max_left _ _
  generalize max (gridShift N) shift = s at hs hg
  have hN : N < 2 ^ (24 + s) :=
    lt_of_lt_of_le (lt_pow_gridShift N) (Nat.pow_le_pow_right (by norm_num) (by omega))
  have hle := roundToGrid_le_pow s N hN
  obtain ⟨c, hc⟩ := roundToGrid_dvd s N
  have hpos : 0 < 2 ^ s := Nat.pow_pos (by norm_num)
  have hc24 : c ≤ 2 ^ 24 := by
    rw [hc, Nat.pow_add, Nat.mul_comm (2 ^ s) c] at hle
    exact Nat.le_of_mul_le_mul_right hle hpos
  have hsplit : (2:Nat) ^ s = 2 ^ shift * 2 ^ (s - shift) := by
    rw [← Nat.pow_add]
    congr 1
    omega
  have hm : roundToGrid s N / 2 ^ shift = c * 2 ^ (s - shift) := by
    rw [hc, hsplit, Nat.mul_assoc, Nat.mul_div_cancel_left _ (Nat.pow_pos (by norm_num)),
      Nat.mul_comm]
  rw [hm]
  exact pow_gridShift_dvd c _ hc24

theorem RawFloat32.isValue_round (negative : Bool) (N shift : Nat) :
    (round negative N shift).isValue = true := by
  have hd := roundToEven_dvd N shift
  unfold round
  by_cases h : roundToEven N shift < maxMagnitude
  · rw [if_pos h]
    cases negative <;> simp [isValue, h, hd]
  · rw [if_neg h]
    rfl

theorem RawFloat32.isValue_add (a b : RawFloat32) : (a.add b).isValue = true := by
  cases a <;> cases b <;>
    first
    | exact isValue_round _ _ _
    | rfl
    | (simp only [add]; split_ifs <;> rfl)

theorem RawFloat32.isValue_mul (a b : RawFloat32) : (a.mul b).isValue = true := by
  cases a <;> cases b <;>
    first
    | exact isValue_round _ _ _
    | rfl
    | (simp only [mul]; split_ifs <;> rfl)

theorem Float32.ofRaw_raw (x : RawFloat32) (h : x.isValue = true) : (ofRaw x).raw = x := by
  unfold ofRaw
  rw [dif_pos h]

theorem Float32.add_raw (a b : Float32) : (a.add b).raw = a.raw.add b.raw :=
  ofRaw_raw _ (RawFloat32.isValue_add _ _)

theorem Float32.mul_raw (a b : Float32) : (a.mul b).raw = a.raw.mul b.raw :=
  ofRaw_raw _ (RawFloat32.isValue_mul _ _)

theorem Float32.ext_raw (a b : Float32) (h : a.raw = b.raw) : a = b := by
  cases a; cases b
  simp only at h
  subst h
  rfl

theorem RawFloat32.round_of_isValue (n : Int) (h : (finite n).isValue = true) :
    ofExact n 0 = finite n := by
  simp only [isValue, Bool.and_eq_true, decide_eq_true_eq] at h
  unfold ofExact round
  rw [roundToEven_of_dvd _ h.2, if_pos h.1]
  by_cases hn : n < 0
  · simp only [hn, decide_True, if_true]
    congr 1
    omega
  · simp only [hn, decide_False, Bool.false_eq_true, if_false]
    congr 1
    omega

theorem RawFloat32.le_round_mono {N M : Nat} (h : N ≤ M) :
    (round false N 0).le (round false M 0) = true := by
  have hm := roundToEven_mono h
  unfold round
  by_cases hM : roundToEven M 0 < maxMagnitude
  · have hN : roundToEven N 0 < maxMagnitude := lt_of_le_of_lt hm hM
    rw [if_pos hM, if_pos hN]
    simp only [Bool.false_eq_true, if_false, le, decide_eq_true_eq]
    exact_mod_cast hm
  · rw [if_neg hM]
    split_ifs <;> rfl

theorem RawFloat32.ofExact_nonneg (n : Int) (h : 0 ≤ n) (shift : Nat) :
    ofExact n shift = round false n.natAbs shift := by
  unfold ofExact
  have : decide (n < 0) = false := by simp; exact h
  rw [this]

theorem RawFloat32.le_trans_raw (a b c : RawFloat32) (h₁ : a.le b = true) (h₂ : b.le c = true) :
    a.le c = true := by
  cases a with
  | nan => simp [le] at h₁
  | finite x =>
    cases b <;> cases c <;> simp_all [le]
    omega
  | inf s =>
    cases b with
    | nan => simp [le] at h₁
    | finite y => cases c <;> simp_all [le]
    | inf t =>
      cases c with
      | nan => simp [le] at h₂
      | finite z => simp_all [le]
      | inf u => cases s <;> cases t <;> cases u <;> simp_all [le]

theorem Float32.zero_le_zero : le zero zero := by
  show RawFloat32.le (.finite 0) (.finite 0) = true
  rfl

theorem Float32.le_trans {a b c : Float32} (h₁ : le a b) (h₂ : le b c) : le a c :=
  RawFloat32.le_trans_raw _ _ _ h₁ h₂

theorem Float32.zero_add (a : Float32) : add zero a = a := by
  apply ext_raw
  rw [add_raw]
  obtain ⟨raw, hv⟩ := a
  cases raw with
  | finite n =>
    show RawFloat32.ofExact (0 + n) 0 = .finite n
    rw [Int.zero_add]
    exact RawFloat32.round_of_isValue n hv
  | inf s => rfl
  | nan => rfl

theorem Float32.add_zero (a : Float32) : add a zero = a := by
  apply ext_raw
  rw [add_raw]
  obtain ⟨raw, hv⟩ := a
  cases raw with
  | finite n =>
    show RawFloat32.ofExact (n + 0) 0 = .finite n
    rw [Int.add_zero]
    exact RawFloat32.round_of_isValue n hv
  | inf s => rfl
  | nan => rfl

/-- Sums of numbers ≥ 0 are rounded monotonically. -/
theorem Float32.raw_add_le_add (a b c : Int) (ha : 0 ≤ a) (hb : 0 ≤ b) (hbc : b ≤ c) :
    (RawFloat32.ofExact (a + b) 0).le (RawFloat32.ofExact (a + c) 0) = true := by
  rw [RawFloat32.ofExact_nonneg _ (by omega), RawFloat32.ofExact_nonneg _ (by omega)]
  exact RawFloat32.le_round_mono (by omega)

theorem Float32.le_add_right {a b : Float32} (ha : le zero a) (hb : le zero b) : le a (add a b) := by
  unfold le
  rw [add_raw]
  obtain ⟨ra, hva⟩ := a
  obtain ⟨rb, hvb⟩ := b
  cases ra with
  | finite n =>
    cases rb with
    | finite m =>
      have hn : 0 ≤ n := by simpa [le, zero, RawFloat32.le] using ha
      have hm : 0 ≤ m := by simpa [le, zero, RawFloat32.le] using hb
      have := raw_add_le_add n 0 m hn (le_refl _) hm
      rw [Int.add_zero, RawFloat32.round_of_isValue n hva] at this
      exact this
    | inf s =>
      have hs : s = false := by simpa [le, zero, RawFloat32.le] using hb
      subst hs
      rfl
    | nan => simp [le, zero, RawFloat32.le] at hb
  | inf s =>
    have hs : s = false := by simpa [le, zero, RawFloat32.le] using ha
    subst hs
    cases rb with
    | finite m => rfl
    | inf t =>
      have ht : t = false := by simpa [le, zero, RawFloat32.le] using hb
      subst ht
      rfl
    | nan => simp [le, zero, RawFloat32.le] at hb
  | nan => simp [le, zero, RawFloat32.le] at ha

theorem Float32.add_le_add_left {a b c : Float32} (ha : le zero a) (hb : le zero b) (hc : le zero c)
    (hbc : le b c) : le (add a b) (add a c) := by
  unfold le
  rw [add_raw, add_raw]
  obtain ⟨ra, hva⟩ := a
  obtain ⟨rb, hvb⟩ := b
  obtain ⟨rc, hvc⟩ := c
  cases ra with
  | nan => simp [le, zero, RawFloat32.le] at ha
  | inf s =>
    have hs : s = false := by simpa [le, zero, RawFloat32.le] using ha
    subst hs
    cases rb with
    | nan => simp [le, zero, RawFloat32.le] at hb
    | inf t =>
      have ht : t = false := by simpa [le, zero, RawFloat32.le] using hb
      subst ht
      cases rc with
      | nan => simp [le, zero, RawFloat32.le] at hc
      | inf u =>
        have hu : u = false := by simpa [le, zero, RawFloat32.le] using hc
        subst hu
        rfl
      | finite k => rfl
    | finite m =>
      cases rc with
      | nan => simp [le, zero, RawFloat32.le] at hc
      | inf u =>
        have hu : u = false := by simpa [le, zero, RawFloat32.le] using hc
        subst hu
        rfl
      | finite k => rfl
  | finite n =>
    have hn : 0 ≤ n := by simpa [le, zero, RawFloat32.le] using ha
    cases rb with
    | nan => simp [le, zero, RawFloat32.le] at hb
    | inf t =>
      have ht : t = false := by simpa [le, zero, RawFloat32.le] using hb
      subst ht
      cases rc with
      | nan => simp [le, zero, RawFloat32.le] at hc
      | inf u =>
        have hu : u = false := by simpa [le, zero, RawFloat32.le] using hc
        subst hu
        rfl
      | finite k => simp [le, RawFloat32.le] at hbc
    | finite m =>
      have hm : 0 ≤ m := by simpa [le, zero, RawFloat32.le] using hb
      cases rc with
      | nan => simp [le, zero, RawFloat32.le] at hc
      | inf u =>
        have hu : u = false := by simpa [le, zero, RawFloat32.le] using hc
        subst hu
        show (RawFloat32.ofExact (n + m) 0).le (.inf false) = true
        rw [RawFloat32.ofExact_nonneg _ (by omega)]
        unfold RawFloat32.round
        split_ifs <;> rfl
      | finite k =>
        have hmk : m ≤ k := by simpa [le, RawFloat32.le] using hbc
        exact raw_add_le_add n m k hn hm hmk

theorem Float32.le_of_not_gt {a c w : Float32} (ha : le zero a) (hw : le c w)
    (h : gt a w = false) : le a w := by
  unfold le at *
  unfold gt at h
  obtain ⟨ra, hva⟩ := a
  obtain ⟨rc, hvc⟩ := c
  obtain ⟨rw, hvw⟩ := w
  cases ra <;> cases rw <;> cases rc <;>
    simp_all [zero, RawFloat32.le, RawFloat32.lt]

set_option maxRecDepth 100000 in
theorem Float32.ofInt_zero : ofInt 0 = zero := by
  decide

set_option maxRecDepth 100000 in
theorem RawFloat32.ofExact_zero : ofExact 0 149 = finite 0 := by
  decide

theorem Float32.zero_mul_finite (a : Float32) (h : a.isFinite = true) :
    mul (ofInt 0) a = zero := by
  apply ext_raw
  rw [mul_raw, ofInt_zero]
  obtain ⟨raw, hv⟩ := a
  cases raw with
  | finite n =>
    show RawFloat32.ofExact (0 * n) 149 = RawFloat32.finite 0
    rw [Int.zero_mul]
    exact RawFloat32.ofExact_zero
  | inf s => simp [isFinite] at h
  | nan => simp [isFinite] at h

/-- The arithmetic of `float32` has the order facts of `Arith.Ordered`. -/
theorem float32Arith_ordered : float32Arith.Ordered Float32.le where
  zero_le_zero := Float32.zero_le_zero
  le_trans := fun _ _ _ h₁ h₂ => Float32.le_trans h₁ h₂
  zero_add := Float32.zero_add
  add_zero := Float32.add_zero
  le_add_right := fun _ _ ha hb => Float32.le_add_right ha hb
  add_le_add_left := fun _ _ _ ha hb hc hbc => Float32.add_le_add_left ha hb hc hbc
  le_of_not_gt := fun _ _ _ ha hw h => Float32.le_of_not_gt ha hw h

/-! ## Row-wrap layout: positions -/

theorem rowY_zero {F : Type} (ar : Arith F) (l : rowWrapLayout F) (rowHeight : F) :
    rowY ar l rowHeight 0 = ar.zero := by
  simp [rowY]

theorem rowY_pos {F : Type} (ar : Arith F) (l : rowWrapLayout F) (rowHeight : F)
    (k : Nat) (hk : 1 ≤ k) :
    rowY ar l rowHeight k = ar.mul (ar.ofNat k) (ar.add rowHeight l.verticalPadding) := by
  have : k ≠ 0 := by omega
  simp [rowY, this]

/-- What the loop of `Layout` does from a position with `x` ≥ 0 in row `rows - 1`, on
objects of minimum widths ≥ 0, in an arithmetic with the order facts. -/
theorem layoutLoop_spec {F : Type} (ar : Arith F) (le : F → F → Prop)
    (hE : ar.Ordered le) (l : rowWrapLayout F) (containerSize : Size F) (rowHeight : F)
    (hpad : le ar.zero l.horizontalPadding) (objects : List (CanvasObject F)) :
    ∀ (pos : Position F) (rows : Nat), 1 ≤ rows → le ar.zero pos.X →
      pos.Y = rowY ar l rowHeight (rows - 1) →
      (∀ o ∈ objects, o.visible = true → le ar.zero o.minSize.Width) →
      rows ≤ (layoutLoop ar l containerSize rowHeight pos rows objects).2 ∧
      (∀ o' ∈ (layoutLoop ar l containerSize rowHeight pos rows objects).1,
        o'.visible = true →
        o'.size = o'.minSize ∧ le ar.zero o'.position.X ∧
        (le (ar.add o'.minSize.Width l.horizontalPadding) containerSize.Width →
          le (ar.add o'.position.X o'.minSize.Width) containerSize.Width) ∧
        ∃ k, rows - 1 ≤ k ∧
          k < (layoutLoop ar l containerSize rowHeight pos rows objects).2 ∧
          o'.position.Y = rowY ar l rowHeight k) ∧
      List.Chain' (PlacedAfter ar l rowHeight)
        ((layoutLoop ar l containerSize rowHeight pos rows objects).1.filter
          fun o => o.visible) ∧
      (∀ b ∈ ((layoutLoop ar l containerSize rowHeight pos rows objects).1.filter
          fun o => o.visible).head?,
        b.position = pos ∨
          (b.position.X = ar.zero ∧ b.position.Y = rowY ar l rowHeight rows)) := by
  induction objects with
  | nil =>
    intro pos rows _ _ _ _
    refine ⟨le_refl _, ?_, ?_, ?_⟩
    · intro o' ho'
      cases ho'
    · exact List.chain'_nil
    · intro b hb
      cases hb
  | cons o objects ih =>
    intro pos rows hrows hx hy hw
    have hwrest : ∀ o' ∈ objects, o'.visible = true → le ar.zero o'.minSize.Width :=
      fun o' ho' => hw o' (List.mem_cons_of_mem _ ho')
    by_cases hv : o.visible = true
    · rw [layoutLoop_visible _ _ _ _ _ _ _ _ hv]
      have hwidth : le ar.zero o.minSize.Width := hw o (List.mem_cons_self _ _) hv
      have hle_w : le o.minSize.Width (ar.add o.minSize.Width l.horizontalPadding) :=
        hE.le_add_right _ _ hwidth hpad
      have hw0 : le ar.zero (ar.add o.minSize.Width l.horizontalPadding) :=
        hE.le_trans _ _ _ hwidth hle_w
      by_cases hwrap : ar.gt (ar.add pos.X (ar.add o.minSize.Width l.horizontalPadding))
          containerSize.Width = true
      · simp only [hwrap, if_true]
        have hx2 : le ar.zero (Position.Add ar
            (NewPos ar.zero (ar.mul (ar.ofNat rows) (ar.add rowHeight l.verticalPadding)))
            (NewPos (ar.add o.minSize.Width l.horizontalPadding) ar.zero)).X := by
          show le ar.zero (ar.add ar.zero (ar.add o.minSize.Width l.horizontalPadding))
          rw [hE.zero_add]
          exact hw0
        have hy2 : (Position.Add ar
            (NewPos ar.zero (ar.mul (ar.ofNat rows) (ar.add rowHeight l.verticalPadding)))
            (NewPos (ar.add o.minSize.Width l.horizontalPadding) ar.zero)).Y =
            rowY ar l rowHeight (rows + 1 - 1) := by
          show ar.add (ar.mul (ar.ofNat rows) (ar.add rowHeight l.verticalPadding)) ar.zero =
            rowY ar l rowHeight (rows + 1 - 1)
          rw [hE.add_zero, Nat.add_sub_cancel, rowY_pos ar l rowHeight rows hrows]
        obtain ⟨h1, h2, h3, h4⟩ := ih _ (rows + 1) (by omega) hx2 hy2 hwrest
        refine ⟨by omega, ?_, ?_, ?_⟩
        · intro o' ho' hvo'
          rcases List.mem_cons.mp ho' with rfl | ho'
          · refine ⟨rfl, hE.zero_le_zero, ?_, rows, by omega, by omega,
              (rowY_pos ar l rowHeight rows hrows).symm⟩
            intro hfit
            show le (ar.add ar.zero o.minSize.Width) containerSize.Width
            rw [hE.zero_add]
            exact hE.le_trans _ _ _ hle_w hfit
          · obtain ⟨ha, hb, hc, k, hk1, hk2, hk3⟩ := h2 o' ho' hvo'
            exact ⟨ha, hb, hc, k, by omega, hk2, hk3⟩
        · rw [List.filter_cons]
          simp only [CanvasObject.Move, CanvasObject.Resize, hv, if_true]
          rw [List.chain'_cons']
          refine ⟨?_, h3⟩
          intro b hb
          rcases h4 b hb with hpos | ⟨hbx, hby⟩
          · left
            rw [hpos]
            constructor
            · show ar.add (ar.mul (ar.ofNat rows) (ar.add rowHeight l.verticalPadding))
                  ar.zero = ar.mul (ar.ofNat rows) (ar.add rowHeight l.verticalPadding)
              rw [hE.add_zero]
            · rfl
          · right
            exact ⟨hbx, rows, (rowY_pos ar l rowHeight rows hrows).symm, hby⟩
        · intro b hb
          rw [List.filter_cons] at hb
          simp only [CanvasObject.Move, CanvasObject.Resize, hv, if_true,
            List.head?_cons, Option.mem_def, Option.some.injEq] at hb
          subst hb
          right
          exact ⟨rfl, (rowY_pos ar l rowHeight rows hrows).symm⟩
      · have hnowrap : ar.gt (ar.add pos.X (ar.add o.minSize.Width l.horizontalPadding))
            containerSize.Width = false := by simpa using hwrap
        simp only [hnowrap, Bool.false_eq_true, if_false]
        have hx2 : le ar.zero (Position.Add ar pos
            (NewPos (ar.add o.minSize.Width l.horizontalPadding) ar.zero)).X :=
          hE.le_trans _ _ _ hx (hE.le_add_right _ _ hx hw0)
        have hy2 : (Position.Add ar pos
            (NewPos (ar.add o.minSize.Width l.horizontalPadding) ar.zero)).Y =
            rowY ar l rowHeight (rows - 1) := by
          show ar.add pos.Y ar.zero = rowY ar l rowHeight (rows - 1)
          rw [hE.add_zero, hy]
        obtain ⟨h1, h2, h3, h4⟩ := ih _ rows hrows hx2 hy2 hwrest
        refine ⟨h1, ?_, ?_, ?_⟩
        · intro o' ho' hvo'
          rcases List.mem_cons.mp ho' with rfl | ho'
          · refine ⟨rfl, hx, ?_, rows - 1, le_refl _, by omega, hy⟩
            intro hfit
            have hfit0 : le (ar.add pos.X (ar.add o.minSize.Width l.horizontalPadding))
                containerSize.Width :=
              hE.le_of_not_gt _ _ _ hx2 hfit hnowrap
            exact hE.le_trans _ _ _
              (hE.add_le_add_left _ _ _ hx hwidth hw0 hle_w) hfit0
          · exact h2 o' ho' hvo'
        · rw [List.filter_cons]
          simp only [CanvasObject.Move, CanvasObject.Resize, hv, if_true]
          rw [List.chain'_cons']
          refine ⟨?_, h3⟩
          intro b hb
          rcases h4 b hb with hpos | ⟨hbx, hby⟩
          · left
            rw [hpos]
            constructor
            · show ar.add pos.Y ar.zero = pos.Y
              rw [hE.add_zero]
            · rfl
          · right
            refine ⟨hbx, rows - 1, hy, ?_⟩
            rw [hby, Nat.sub_add_cancel hrows]
        · intro b hb
          rw [List.filter_cons] at hb
          simp only [CanvasObject.Move, CanvasObject.Resize, hv, if_true,
            List.head?_cons, Option.mem_def, Option.some.injEq] at hb
          subst hb
          left
          rfl
    · have hv' : o.visible = false := by simpa using hv
      rw [layoutLoop_hidden _ _ _ _ _ _ _ _ hv']
      obtain ⟨h1, h2, h3, h4⟩ := ih pos rows hrows hx hy hwrest
      refine ⟨h1, ?_, ?_, ?_⟩
      · intro o' ho' hvo'
        rcases List.mem_cons.mp ho' with rfl | ho'
        · rw [hv'] at hvo'
          cases hvo'
        · exact h2 o' ho' hvo'
      · rw [List.filter_cons]
        simp only [hv', Bool.false_eq_true, if_false]
        exact h3
      · intro b hb
        rw [List.filter_cons] at hb
        simp only [hv', Bool.false_eq_true, if_false] at hb
        exact h4 b hb

/-- The loop of `Layout` returns the objects it was given, in their order: it changes
neither what `Visible()` nor what `MinSize()` returns. -/
theorem layoutLoop_same_objects {F : Type} (ar : Arith F) (l : rowWrapLayout F)
    (containerSize : Size F) (rowHeight : F) (objects : List (CanvasObject F)) :
    ∀ (pos : Position F) (rows : Nat),
      List.Forall₂ (fun o o' => o'.visible = o.visible ∧ o'.minSize = o.minSize) objects
        (layoutLoop ar l containerSize rowHeight pos rows objects).1 := by
  induction objects with
  | nil =>
    intro pos rows
    exact List.Forall₂.nil
  | cons o objects ih =>
    intro pos rows
    by_cases hv : o.visible = true
    · rw [layoutLoop_visible _ _ _ _ _ _ _ _ hv]
      exact List.Forall₂.cons ⟨rfl, rfl⟩ (ih _ _)
    · have hv' : o.visible = false := by simpa using hv
      rw [layoutLoop_hidden _ _ _ _ _ _ _ _ hv']
      exact List.Forall₂.cons ⟨rfl, rfl⟩ (ih _ _)

set_option maxRecDepth 100000 in
/-- C16, as stated, fails in four ways. (1) An object of negative minimum width: with
paddings 4 and a container of width 100, after a visible object of minimum width -10
the visible object of minimum width 5 (5 + 4 ≤ 100) is placed at `x` = -6, left of the
container. (2) Sums that are not rounded: with padding 0 and a container of width
2^24, after an object of width 2^24 the object of width 1 is placed at `x` = 2^24;
`x` + 1 is 2^24 in `float32`, within the container, but 2^24 + 1 before rounding.
(3) Row 0 of objects of height +Inf is at `y` = 0, while 0 × (+Inf + 4) is NaN.
(4) Sums taken from left to right: with padding 1, after objects of widths 2^24 - 1
and 1 the third object is at `x` = 2^24 + 2 = 2^24 + (1 + 1), while (2^24 + 1) + 1 is
2^24 in `float32`. -/
theorem Layout_keeps_inside_counterexample :
    (Float32.zero.le (paddedLayout 4 4).horizontalPadding ∧
      Float32.zero.le (paddedLayout 4 4).verticalPadding ∧
      (¬ ∀ o' ∈ ((paddedLayout 4 4).Layout float32Arith
            [visibleObject (-10) 10, visibleObject 5 10]
            { Width := Float32.ofInt 100, Height := Float32.ofInt 100 }).2,
          o'.visible = true →
          (o'.minSize.Width.add (paddedLayout 4 4).horizontalPadding).le
              (Float32.ofInt 100) →
            Float32.zero.le o'.position.X ∧
            (o'.position.X.add o'.minSize.Width).le (Float32.ofInt 100)) ∧
      positions ((paddedLayout 4 4).Layout float32Arith
            [visibleObject (-10) 10, visibleObject 5 10]
            { Width := Float32.ofInt 100, Height := Float32.ofInt 100 }).2 =
        [(Float32.zero, Float32.zero), (Float32.ofInt (-6), Float32.zero)]) ∧
    (positions ((paddedLayout 0 0).Layout float32Arith
            [visibleObject 16777216 10, visibleObject 1 10]
            { Width := Float32.ofInt 16777216, Height := Float32.ofInt 100 }).2 =
        [(Float32.zero, Float32.zero), (Float32.ofInt 16777216, Float32.zero)] ∧
      ((visibleObject 1 10).minSize.Width.add (paddedLayout 0 0).horizontalPadding).le
        (Float32.ofInt 16777216) ∧
      ((Float32.ofInt 16777216).add (visibleObject 1 10).minSize.Width).le
        (Float32.ofInt 16777216) ∧
      Float32.exactSumLe (Float32.ofInt 16777216) (visibleObject 1 10).minSize.Width
        (Float32.ofInt 16777216) = false) ∧
    (((paddedLayout 4 4).Layout float32Arith [tallObject 5]
            { Width := Float32.ofInt 100, Height := Float32.ofInt 100 }).1.rowCount = 1 ∧
      positions ((paddedLayout 4 4).Layout float32Arith [tallObject 5]
            { Width := Float32.ofInt 100, Height := Float32.ofInt 100 }).2 =
        [(Float32.zero, Float32.zero)] ∧
      (Float32.ofInt 0).mul
          ((tallObject 5).minSize.Height.add (paddedLayout 4 4).verticalPadding) ≠
        Float32.zero) ∧
    (positions ((paddedLayout 1 1).Layout float32Arith
            [visibleObject 16777215 10, visibleObject 1 10, visibleObject 1 10]
            { Width := Float32.ofInt 33554432, Height := Float32.ofInt 100 }).2 =
        [(Float32.zero, Float32.zero), (Float32.ofInt 16777216, Float32.zero),
          (Float32.ofInt 16777218, Float32.zero)] ∧
      ((Float32.ofInt 16777216).add (visibleObject 1 10).minSize.Width).add
          (paddedLayout 1 1).horizontalPadding = Float32.ofInt 16777216 ∧
      Float32.ofInt 16777216 ≠ Float32.ofInt 16777218) := by
  decide

/-- C16, amended: in the `float32` arithmetic of the program, for a horizontal padding
≥ 0 and objects whose minimum widths are ≥ 0, `Layout` returns the objects in their
order; every visible object is resized to its minimum size and placed at an `x` ≥ 0
in a row `k` below the recorded row count, at the `y` of that row; if its minimum
width plus the horizontal padding is at most the container width, its `x` plus its
width is at most the container width; each visible object is placed right after the
visible object before it: next in its row, at that object's `x` plus the sum of that
object's width and the horizontal padding, or first in the next row, at `x` = 0; the
first visible object is at `x` = 0 in row 0 or row 1; and the `y` of row `k` is
`k` × (row height + vertical padding) for `k` ≥ 1 and 0 for row 0, which is
0 × (row height + vertical padding) whenever that sum is finite, the row height
being the minimum height of the first object. -/
theorem Layout_keeps_inside (l : rowWrapLayout Float32) (first : CanvasObject Float32)
    (rest : List (CanvasObject Float32)) (containerSize : Size Float32)
    (hpad : Float32.zero.le l.horizontalPadding)
    (hwidth : ∀ o ∈ first :: rest, o.visible = true → Float32.zero.le o.minSize.Width) :
    List.Forall₂ (fun o o' => o'.visible = o.visible ∧ o'.minSize = o.minSize)
        (first :: rest) (l.Layout float32Arith (first :: rest) containerSize).2 ∧
    (∀ o' ∈ (l.Layout float32Arith (first :: rest) containerSize).2, o'.visible = true →
      o'.size = o'.minSize ∧ Float32.zero.le o'.position.X ∧
      ((o'.minSize.Width.add l.horizontalPadding).le containerSize.Width →
        (o'.position.X.add o'.minSize.Width).le containerSize.Width) ∧
      ∃ k, k < (l.Layout float32Arith (first :: rest) containerSize).1.rowCount ∧
        o'.position.Y = rowY float32Arith l first.minSize.Height k) ∧
    List.Chain' (PlacedAfter float32Arith l first.minSize.Height)
      ((l.Layout float32Arith (first :: rest) containerSize).2.filter fun o => o.visible) ∧
    (∀ b ∈ ((l.Layout float32Arith (first :: rest) containerSize).2.filter
        fun o => o.visible).head?,
      b.position.X = Float32.zero ∧
        (b.position.Y = rowY float32Arith l first.minSize.Height 0 ∨
          b.position.Y = rowY float32Arith l first.minSize.Height 1)) ∧
    (∀ k, 1 ≤ k → rowY float32Arith l first.minSize.Height k =
      (Float32.ofInt k).mul (first.minSize.Height.add l.verticalPadding)) ∧
    rowY float32Arith l first.minSize.Height 0 = Float32.zero ∧
    ((first.minSize.Height.add l.verticalPadding).isFinite = true →
      rowY float32Arith l first.minSize.Height 0 =
        (Float32.ofInt 0).mul (first.minSize.Height.add l.verticalPadding)) := by
  have hrow0 : rowY float32Arith l first.minSize.Height 0 = float32Arith.zero :=
    rowY_zero _ _ _
  obtain ⟨-, h2, h3, h4⟩ := layoutLoop_spec float32Arith Float32.le float32Arith_ordered
    l containerSize first.minSize.Height hpad
    (first :: rest) (NewPos float32Arith.zero float32Arith.zero) 1 (le_refl _)
    Float32.zero_le_zero hrow0.symm hwidth
  rw [Layout_cons]
  refine ⟨layoutLoop_same_objects _ _ _ _ _ _ _, ?_, h3, ?_,
    fun k hk => rowY_pos _ _ _ k hk, hrow0, ?_⟩
  · intro o' ho' hvo'
    obtain ⟨ha, hb, hc, k, -, hk2, hk3⟩ := h2 o' ho' hvo'
    exact ⟨ha, hb, hc, k, hk2, hk3⟩
  · intro b hb
    rcases h4 b hb with hpos | ⟨hbx, hby⟩
    · rw [hpos]
      exact ⟨rfl, Or.inl hrow0.symm⟩
    · exact ⟨hbx, Or.inr hby⟩
  · intro hfin
    rw [hrow0]
    exact (Float32.zero_mul_finite _ hfin).symm

set_option exponentiation.threshold 512 in
set_option maxRecDepth 100000 in
/-- C16, amended, at two concrete inputs. Objects of widths 2^24 and 1, paddings 1,
container of width 2^24: 2^24 + 1 is 2^24 in `float32`, so the first object stays in
row 0 and the second one starts row 1, at `y` = 1 × (10 + 1); two rows are recorded.
Objects of widths 60 and 50 with a hidden one between them, paddings 4, container of
width 100: the third object starts row 1, the hidden one stays at (7, 7). -/
theorem Layout_keeps_inside_witness :
    (∀ o' ∈ ((paddedLayout 1 1).Layout float32Arith
          (visibleObject 16777216 10 :: [visibleObject 1 10])
          { Width := Float32.ofInt 16777216, Height := Float32.ofInt 100 }).2,
        o'.visible = true →
        o'.size = o'.minSize ∧ Float32.zero.le o'.position.X ∧
        ((o'.minSize.Width.add (paddedLayout 1 1).horizontalPadding).le
            (Float32.ofInt 16777216) →
          (o'.position.X.add o'.minSize.Width).le (Float32.ofInt 16777216)) ∧
        ∃ k, k < ((paddedLayout 1 1).Layout float32Arith
              (visibleObject 16777216 10 :: [visibleObject 1 10])
              { Width := Float32.ofInt 16777216, Height := Float32.ofInt 100 }).1.rowCount ∧
          o'.position.Y =
            rowY float32Arith (paddedLayout 1 1) (visibleObject 16777216 10).minSize.Height
              k) ∧
    positions ((paddedLayout 1 1).Layout float32Arith
          (visibleObject 16777216 10 :: [visibleObject 1 10])
          { Width := Float32.ofInt 16777216, Height := Float32.ofInt 100 }).2 =
      [(Float32.zero, Float32.zero), (Float32.zero, Float32.ofInt 11)] ∧
    ((paddedLayout 1 1).Layout float32Arith
          (visibleObject 16777216 10 :: [visibleObject 1 10])
          { Width := Float32.ofInt 16777216, Height := Float32.ofInt 100 }).1.rowCount = 2 ∧
    positions ((paddedLayout 4 4).Layout float32Arith
          [visibleObject 60 10, hiddenObject 30 10, visibleObject 50 10]
          { Width := Float32.ofInt 100, Height := Float32.ofInt 100 }).2 =
      [(Float32.zero, Float32.zero), (Float32.ofInt 7, Float32.ofInt 7),
        (Float32.zero, Float32.ofInt 14)] :=
  ⟨(Layout_keeps_inside (paddedLayout 1 1) (visibleObject 16777216 10)
      [visibleObject 1 10]
      { Width := Float32.ofInt 16777216, Height := Float32.ofInt 100 }
      (by decide) (by decide)).2.1,
    by decide, by decide, by decide⟩

end EveBuddy
